import Mathlib

/-!
Verification development for the documentation-driven app builder's rule
engine (`services/ruleEngine.ts`): the rule catalog, `evaluateRules`,
`applySuggestion`, `detectContradictions` and `detectDuplicates` are
translated into executable Lean definitions, and the specified properties
are proved or refuted against this translation.

Translation conventions:
* JavaScript arrays become `List`; optional fields and the collections a
  `SystemModel` may lack become `Option`.
* Reading a collection that is absent (`undefined.forEach`, `undefined.some`)
  throws a `TypeError` in JavaScript; operations that perform such reads
  return `Except String _`, and `getColl` models the read.  Field accesses
  the source guards with `?.` are modelled totally (absent behaves as the
  guard makes it behave).
* Machine strings are Lean `String`s; all catalog strings are ASCII, so
  `String.jsLower`/`String.jsTrim` agree with `toLowerCase`/`trim`.
* `Math.random()`-generated id suffixes are modelled by an oracle
  `gen : Nat -> String` supplying the k-th drawn suffix.
-/

instance [DecidableEq ε] [DecidableEq α] : DecidableEq (Except ε α) := fun a b =>
  match a, b with
  | .ok x, .ok y =>
    match decEq x y with
    | isTrue h => isTrue (by rw [h])
    | isFalse h => isFalse (fun hh => h (by cases hh; rfl))
  | .error e, .error e' =>
    match decEq e e' with
    | isTrue h => isTrue (by rw [h])
    | isFalse h => isFalse (fun hh => h (by cases hh; rfl))
  | .ok _, .error _ => isFalse nofun
  | .error _, .ok _ => isFalse nofun

/-- ASCII lower-casing of one character.  `toLowerCase` agrees with this
on ASCII, and every token the engine compares against is ASCII. -/
def lowerChar : Char → Char
  | 'A' => 'a' | 'B' => 'b' | 'C' => 'c' | 'D' => 'd' | 'E' => 'e'
  | 'F' => 'f' | 'G' => 'g' | 'H' => 'h' | 'I' => 'i' | 'J' => 'j'
  | 'K' => 'k' | 'L' => 'l' | 'M' => 'm' | 'N' => 'n' | 'O' => 'o'
  | 'P' => 'p' | 'Q' => 'q' | 'R' => 'r' | 'S' => 's' | 'T' => 't'
  | 'U' => 'u' | 'V' => 'v' | 'W' => 'w' | 'X' => 'x' | 'Y' => 'y'
  | 'Z' => 'z' | c => c

/-- `s.toLowerCase()` (ASCII). -/
def String.jsLower (s : String) : String :=
  ⟨s.data.map lowerChar⟩

/-- `s.jsTrim()`: strip leading and trailing whitespace. -/
def String.jsTrim (s : String) : String :=
  ⟨((s.data.dropWhile Char.isWhitespace).reverse.dropWhile Char.isWhitespace).reverse⟩

/-- JavaScript `includes` on char lists: `hasPrefixL pat s` is true when
`pat` is a prefix of `s`. -/
def hasPrefixL : List Char → List Char → Bool
  | [], _ => true
  | _ :: _, [] => false
  | a :: as, b :: bs => a == b && hasPrefixL as bs

/-- `hasSubstrL s pat` is true when `pat` occurs contiguously in `s`
(JavaScript `String.prototype.includes`). -/
def hasSubstrL : List Char → List Char → Bool
  | [], pat => pat.isEmpty
  | s@(_ :: t), pat => hasPrefixL pat s || hasSubstrL t pat

/-- `strContains s pat` models `s.includes(pat)`. -/
def strContains (s pat : String) : Bool :=
  hasSubstrL s.data pat.data

/-- Collapse every maximal whitespace run to a single dash; models
`s.replace(/\s+/g, "-")`.  The flag records whether the previous
character was part of a whitespace run. -/
def wsDashAux : Bool → List Char → List Char
  | _, [] => []
  | prevWs, c :: t =>
    if c.isWhitespace then
      (if prevWs then [] else ['-']) ++ wsDashAux true t
    else c :: wsDashAux false t

/-- `s.replace(/\s+/g, "-")`. -/
def wsDash (s : String) : String :=
  ⟨wsDashAux false s.data⟩

/-- `prov?.file || "unknown"`: both an absent provenance and an empty
file name (falsy in JavaScript) yield the fallback. -/
structure Provenance where
  file : String
  context : Option String := none
deriving DecidableEq, Repr

def provFileOrUnknown : Option Provenance → String
  | none => "unknown"
  | some p => if p.file == "" then "unknown" else p.file

structure Attr where
  name : String
  value : String
deriving DecidableEq, Repr

mutual
/-- `UIComponent` from `types.ts`: a recursive tree node.  The children
array is encoded by the mutually inductive `UICompList` so that all tree
recursions are structural (and hence compute by `rfl`). -/
inductive UIComponent where
  | mk (name : String) (children : Option UICompList)
      (attributes : Option (List Attr)) (provenance : Option Provenance)
inductive UICompList where
  | nil
  | cons (c : UIComponent) (cs : UICompList)
end

mutual
def UIComponent.deq : (a b : UIComponent) → Decidable (a = b)
  | .mk n ch a1 p1, .mk n' ch' a2 p2 =>
    have dch : Decidable (ch = ch') :=
      match ch, ch' with
      | none, none => isTrue rfl
      | none, some _ => isFalse nofun
      | some _, none => isFalse nofun
      | some l, some l' =>
        match UICompList.deq l l' with
        | isTrue h => isTrue (by rw [h])
        | isFalse h => isFalse (fun hh => h (by cases hh; rfl))
    match decEq n n', dch, decEq a1 a2, decEq p1 p2 with
    | isTrue h1, isTrue h2, isTrue h3, isTrue h4 =>
      isTrue (by rw [h1, h2, h3, h4])
    | isFalse h1, _, _, _ => isFalse (fun h => h1 (by cases h; rfl))
    | _, isFalse h2, _, _ => isFalse (fun h => h2 (by cases h; rfl))
    | _, _, isFalse h3, _ => isFalse (fun h => h3 (by cases h; rfl))
    | _, _, _, isFalse h4 => isFalse (fun h => h4 (by cases h; rfl))
def UICompList.deq : (a b : UICompList) → Decidable (a = b)
  | .nil, .nil => isTrue rfl
  | .nil, .cons _ _ => isFalse nofun
  | .cons _ _, .nil => isFalse nofun
  | .cons c cs, .cons c' cs' =>
    match UIComponent.deq c c', UICompList.deq cs cs' with
    | isTrue h1, isTrue h2 => isTrue (by rw [h1, h2])
    | isFalse h1, _ => isFalse (fun h => h1 (by cases h; rfl))
    | _, isFalse h2 => isFalse (fun h => h2 (by cases h; rfl))
end

instance : DecidableEq UIComponent := UIComponent.deq

instance : DecidableEq UICompList := UICompList.deq

def UIComponent.name : UIComponent → String
  | .mk n _ _ _ => n

def UIComponent.children : UIComponent → Option UICompList
  | .mk _ ch _ _ => ch

def UIComponent.attributes : UIComponent → Option (List Attr)
  | .mk _ _ a _ => a

/-- `comp.attributes?.some p` (an absent attribute list yields a falsy
result, which every use site treats as `false`). -/
def attrAny (c : UIComponent) (p : Attr → Bool) : Bool :=
  match c.attributes with
  | none => false
  | some l => l.any p

def UICompList.anyL (p : UIComponent → Bool) : UICompList → Bool
  | .nil => false
  | .cons c cs => p c || cs.anyL p

/-- `comp.children?.some p`. -/
def childAny (c : UIComponent) (p : UIComponent → Bool) : Bool :=
  match c.children with
  | none => false
  | some cs => cs.anyL p

mutual
/-- Depth-first, parent-before-children traversal of a component, in
sibling order: the order in which `checkComponents`/`traverse` in the
source visit nodes (each visits a node, then recurses into its
children). -/
def UIComponent.walk : UIComponent → List UIComponent
  | .mk n ch attrs prov =>
    .mk n ch attrs prov ::
      (match ch with
       | none => []
       | some cs => cs.walkAll)
def UICompList.walkAll : UICompList → List UIComponent
  | .nil => []
  | .cons c cs => c.walk ++ cs.walkAll
end

/-- All nodes of a forest of component trees, in visit order. -/
def walkForest (cs : List UIComponent) : List UIComponent :=
  cs.flatMap UIComponent.walk

structure UIModule where
  name : String
  purpose : String
  components : List UIComponent
  provenance : Option Provenance := none
deriving DecidableEq

structure Step where
  action : String
  expectedResult : String
  stateTransition : Option String := none
deriving DecidableEq, Repr

structure ErrorPath where
  condition : String
  recovery : String
deriving DecidableEq, Repr

structure UserFlow where
  name : String
  trigger : String
  steps : List Step
  errorPaths : List ErrorPath
  outcome : String
  provenance : Option Provenance := none
deriving DecidableEq, Repr

structure PropertyDef where
  name : String
  type : String
  description : String
deriving DecidableEq, Repr

structure Entity where
  name : String
  properties : List PropertyDef
  relationships : List String := []
  provenance : Option Provenance := none
deriving DecidableEq, Repr

inductive StateScope where
  | global
  | component
  | server
deriving DecidableEq, Repr

/-- The string a `StateDefinition` scope interpolates to. -/
def StateScope.str : StateScope → String
  | .global => "global"
  | .component => "component"
  | .server => "server"

structure StateDefinition where
  name : String
  scope : StateScope
  description : String
  provenance : Option Provenance := none
deriving DecidableEq, Repr

inductive ConstraintScope where
  | performance | security | design | accessibility | usability | technical | other
deriving DecidableEq, Repr

structure Constraint where
  description : String
  scope : ConstraintScope := .other
  impact : String := ""
  impactedElements : Option (List String) := none
deriving DecidableEq, Repr

structure MicroDetail where
  description : String
  impact : String := ""
  tags : Option (List String) := none
  provenance : Option Provenance := none
deriving DecidableEq, Repr

/-- `SystemModel`, restricted to the fields the four rule-engine
operations read or write.  (`systemRules`, `dependencies`, `gaps`,
`contradictions`, `duplicates`, `suggestions`, `smartSuggestions` and
`readinessScore` are carried through every operation untouched - the
shallow copy in `applySuggestion` preserves them verbatim - so they are
omitted.)  Each collection is optional: the engine may be handed a model
in which a collection is absent, which is distinct from present-but-empty. -/
structure SystemModel where
  entities : Option (List Entity)
  stateDefinitions : Option (List StateDefinition)
  uiModules : Option (List UIModule)
  flows : Option (List UserFlow)
  microDetails : Option (List MicroDetail)
  constraints : Option (List Constraint)
deriving DecidableEq

/-- Reading an absent collection (`undefined.forEach` / `undefined.some`)
throws in JavaScript; reading a present one yields the array. -/
def getColl : Option (List α) → Except String (List α)
  | none => .error "TypeError: cannot read properties of undefined"
  | some l => .ok l

/-- `model.microDetails?.some p`: guarded access, absent behaves as
`false`. -/
def microAny (m : SystemModel) (p : MicroDetail → Bool) : Bool :=
  match m.microDetails with
  | none => false
  | some l => l.any p

inductive Impact where
  | high | medium | low
deriving DecidableEq, Repr

inductive SugStatus where
  | pending | accepted | rejected
deriving DecidableEq, Repr

structure SmartSuggestion where
  id : String
  ruleId : String
  category : String
  description : String
  impact : Impact
  rationale : String
  action : String
  status : SugStatus
  targetElement : Option String
deriving DecidableEq, Repr

structure ConflictPoint where
  text : String
  provenance : Provenance
deriving DecidableEq, Repr

structure Contradiction where
  id : String
  description : String
  conflictingPoints : List ConflictPoint
  resolutionSuggestion : String
  severity : Impact
deriving DecidableEq, Repr

inductive ElementType where
  | entity | flow | component | rule
deriving DecidableEq, Repr

structure Occurrence where
  file : String
  context : String
deriving DecidableEq, Repr

structure DuplicateContent where
  id : String
  elementName : String
  elementType : ElementType
  occurrences : List Occurrence
  impact : Impact
  suggestion : String
deriving DecidableEq, Repr

/-- `ICON_MAP` as an association list in object-literal insertion order
(the order `Object.entries` iterates for string keys). -/
def ICON_MAP : List (String × String) := [
  ("save", "Save"), ("delete", "Trash2"), ("remove", "Trash2"),
  ("edit", "Pencil"), ("add", "Plus"), ("search", "Search"),
  ("filter", "Filter"), ("refresh", "Refresh"), ("home", "Home"),
  ("profile", "User"), ("settings", "Settings"), ("close", "X"),
  ("cancel", "X"), ("plus", "Plus"), ("minus", "Minus"),
  ("check", "Check"), ("info", "Info"), ("help", "HelpCircle"),
  ("alert", "AlertTriangle"), ("error", "AlertCircle"),
  ("success", "CheckCircle2"), ("mail", "Mail"), ("send", "Send"),
  ("download", "Download"), ("upload", "Upload"), ("login", "LogIn"),
  ("logout", "LogOut"), ("user", "User"), ("users", "Users"),
  ("dashboard", "LayoutDashboard"), ("list", "List"), ("table", "Table"),
  ("calendar", "Calendar"), ("clock", "Clock"), ("bell", "Bell"),
  ("star", "Star"), ("heart", "Heart"), ("share", "Share2"),
  ("copy", "Copy"), ("external", "ExternalLink"), ("link", "Link"),
  ("eye", "Eye"), ("eyeoff", "EyeOff"), ("lock", "Lock"),
  ("unlock", "Unlock"), ("trash", "Trash2"), ("trash2", "Trash2"),
  ("pencil", "Pencil"), ("pluscircle", "PlusCircle"),
  ("minuscircle", "MinusCircle"), ("checkcircle", "CheckCircle2"),
  ("xcircle", "XCircle"), ("arrowright", "ArrowRight"),
  ("arrowleft", "ArrowLeft"), ("arrowup", "ArrowUp"),
  ("arrowdown", "ArrowDown"), ("chevronright", "ChevronRight"),
  ("chevronleft", "ChevronLeft"), ("chevrondown", "ChevronDown"),
  ("chevronup", "ChevronUp")]

/-- First map entry whose key occurs in the lowercased name wins;
fallback `"HelpCircle"`. -/
def getSuggestedIcon (name : String) : String :=
  match ICON_MAP.find? (fun kv => strContains name.jsLower kv.1) with
  | some kv => kv.2
  | none => "HelpCircle"

/-- A rule selector.  Every selector in the catalog is a valid regular
expression of the shape `.*(A|B|...).*` (or plainly `.*`, encoded here as
the single empty alternative), and `new RegExp(sel, "i").test(name)` for
such a pattern holds exactly when `name` contains one of the
alternatives case-insensitively; the selector field stores those
alternatives.  `none` means no selector (always matches).  The malformed-
selector fallback of `matchesSelector` in the source is dead code for
the catalog, since all its selectors parse. -/
abbrev Selector := Option (List String)

def matchesSelector (name : String) : Selector → Bool
  | none => true
  | some alts => alts.any (fun a => strContains name.jsLower a.jsLower)

/-- A rule's trigger type together with its typed condition.  The source
stores `trigger.type` and an untyped `condition(model, target?)`
side by side; in the catalog the condition's target always agrees with
the trigger type, so both are fused into one tagged value.  Only global
conditions can throw (`rule-devops-health-check` reads `model.flows`
unguarded), hence their `Except` result type. -/
inductive RuleBody where
  | global (cond : SystemModel → Except String Bool)
  | component (selector : Selector) (cond : SystemModel → UIComponent → Bool)
  | flow (selector : Selector) (cond : SystemModel → UserFlow → Bool)
  | entity (selector : Selector) (cond : SystemModel → Entity → Bool)

structure SuggestionTemplate where
  action : String
  description : String
  impact : Impact
  rationale : String

/-- A catalog rule.  Every `fix` in the catalog mutates only the matched
component's attribute list (a `push`, preceded by initialising an absent
list to `[]`), computed from the component itself; it is modelled as the
new attribute list. -/
structure Rule where
  id : String
  category : String
  description : String
  body : RuleBody
  suggestion : SuggestionTemplate
  fix : Option (UIComponent → Option (List Attr)) := none

/-- `hasIcon` shared by the two icon rules: some attribute whose name or
value contains "icon". -/
def hasIconAttr (c : UIComponent) : Bool :=
  attrAny c (fun attr =>
    strContains attr.name.jsLower "icon" || strContains attr.value.jsLower "icon")

/-- The fix shared by the two icon rules: push an `icon` attribute whose
value is the suggested icon for the component name. -/
def pushIconFix (c : UIComponent) : Option (List Attr) :=
  some ((c.attributes.getD []) ++ [⟨"icon", getSuggestedIcon c.name⟩])

/-- The selector of `rule-icon-standard-actions`. -/
def iconStandardActionsSelector : Selector :=
  some ["Save", "Delete", "Remove", "Edit", "Pencil", "Trash",
    "Plus", "Add", "Cancel", "Close", "Search", "Filter", "Refresh"]

/-- The condition of both icon rules: fire when the component has no
icon attribute. -/
def iconAbsentCond (_ : SystemModel) (c : UIComponent) : Bool :=
  !hasIconAttr c

/-- `rule-icon-standard-actions`, named so theorems can cite it. -/
def ruleIconStandardActions : Rule :=
  { id := "rule-icon-standard-actions",
    category := "ui/icons",
    description := "Buttons with common actions (save, delete, edit) should use standard icons.",
    body := .component iconStandardActionsSelector iconAbsentCond,
    suggestion := {
      action := "Add Standard Icon",
      description := "Use a standard Lucide icon matching the action verb.",
      impact := .medium,
      rationale := "Users expect consistent iconography for common actions, reducing cognitive load." },
    fix := some pushIconFix }

/-- The selector of `rule-tooltip-icon-only`. -/
def tooltipIconOnlySelector : Selector := some ["Button", "Btn"]

/-- The condition of `rule-tooltip-icon-only`: an icon attribute is
present, no text/label attribute, no tooltip/title attribute. -/
def tooltipIconOnlyCond (_ : SystemModel) (c : UIComponent) : Bool :=
  let hasIcon := attrAny c (fun attr => strContains attr.name.jsLower "icon")
  let hasText := attrAny c (fun attr =>
    attr.name.jsLower == "text" || attr.name.jsLower == "label")
  let hasTooltip := attrAny c (fun attr =>
    strContains attr.name.jsLower "tooltip" || strContains attr.name.jsLower "title")
  hasIcon && !hasText && !hasTooltip

/-- `rule-tooltip-icon-only`, named so theorems can cite it. -/
def ruleTooltipIconOnly : Rule :=
  { id := "rule-tooltip-icon-only",
    category := "ui/ux",
    description := "Icon-only buttons must have a tooltip explaining the action.",
    body := .component tooltipIconOnlySelector tooltipIconOnlyCond,
    suggestion := {
      action := "Add Tooltip",
      description := "Add a tooltip or \x27title\x27 attribute to this icon-only button.",
      impact := .medium,
      rationale := "Icon-only buttons can be ambiguous; tooltips provide necessary context for users." },
    fix := some (fun c => some ((c.attributes.getD []) ++ [⟨"tooltip", c.name⟩])) }

/-- The rule catalog (`RULES` in `ruleEngine.ts`), in registry order. -/
def RULES : List Rule := [
  { id := "rule-icon-nav-item",
    category := "ui/icons",
    description := "Every navigation item should have an associated icon.",
    body := .component (some ["Nav", "Menu", "Sidebar"]) (fun _ c => !hasIconAttr c),
    suggestion := {
      action := "Add Lucide icon",
      description := "Assign a relevant icon from Lucide library to this navigation element.",
      impact := .medium,
      rationale := "Icons improve scannability and user experience in navigation menus." },
    fix := some pushIconFix },
  ruleIconStandardActions,
  ruleTooltipIconOnly,
  { id := "rule-favicon-check",
    category := "ui/global",
    description := "Every web app must have a favicon.",
    body := .global (fun m =>
      .ok (!(microAny m (fun d => strContains d.description.jsLower "favicon")))),
    suggestion := {
      action := "Add Favicon",
      description := "Ensure the project includes a favicon.ico or png in the public directory.",
      impact := .low,
      rationale := "Favicons are essential for brand identity and browser tab recognition." } },
  { id := "rule-confirm-destructive",
    category := "ui/feedback",
    description := "Destructive actions must trigger a confirmation dialog.",
    body := .flow (some ["Delete", "Remove", "Destroy", "Reset", "Clear", "Irreversible"])
      (fun _ f => !(f.steps.any (fun step =>
        strContains step.action.jsLower "confirm" ||
        strContains step.expectedResult.jsLower "dialog" ||
        strContains step.expectedResult.jsLower "modal"))),
    suggestion := {
      action := "Add Confirmation Dialog",
      description := "Implement a confirmation modal before executing this destructive flow.",
      impact := .high,
      rationale := "Prevent accidental data loss by requiring explicit user confirmation for destructive actions." } },
  { id := "rule-feedback-toasts",
    category := "ui/feedback",
    description := "Form submissions should show success/error feedback.",
    body := .flow (some ["Submit", "Save", "Create", "Update", "Post"])
      (fun _ f => !(f.steps.any (fun step =>
        strContains step.expectedResult.jsLower "toast" ||
        strContains step.expectedResult.jsLower "notification" ||
        strContains step.expectedResult.jsLower "success" ||
        strContains step.expectedResult.jsLower "feedback"))),
    suggestion := {
      action := "Add Feedback Toasts",
      description := "Implement success and error toast notifications for this submission flow.",
      impact := .medium,
      rationale := "Immediate feedback confirms to the user that their action was successful or failed." } },
  { id := "rule-loading-button",
    category := "ui/feedback",
    description := "Async buttons should show a loading state and be disabled.",
    body := .component (some ["Button", "Btn"]) (fun _ c =>
      let isAsync := strContains c.name.jsLower "submit" ||
        strContains c.name.jsLower "save" || strContains c.name.jsLower "delete"
      let hasLoadingAttr := attrAny c (fun attr => strContains attr.name.jsLower "loading")
      isAsync && !hasLoadingAttr),
    suggestion := {
      action := "Add Button Loading State",
      description := "Disable the button and show a spinner when an async action is in progress.",
      impact := .medium,
      rationale := "Prevents double-submissions and provides visual feedback during network requests." } },
  { id := "rule-undo-capability",
    category := "ui/ux",
    description := "Data-modifying actions should support undo where feasible.",
    body := .flow (some ["Delete", "Remove", "Update", "Move", "Archive"])
      (fun _ f => !(f.steps.any (fun step => strContains step.action.jsLower "undo"))),
    suggestion := {
      action := "Add Undo Capability",
      description := "Consider adding an \x27Undo\x27 option for this action to allow users to revert mistakes easily.",
      impact := .low,
      rationale := "Providing an undo mechanism is a powerful way to reduce user anxiety and improve UX." } },
  { id := "rule-loading-state",
    category := "ui/loading",
    description := "Data-fetching components should have skeleton screens or spinners.",
    body := .component (some ["List", "Table", "Grid", "Feed", "Dashboard", "Chart"])
      (fun _ c => !(attrAny c (fun attr =>
        strContains attr.name.jsLower "loading" || strContains attr.name.jsLower "skeleton"))),
    suggestion := {
      action := "Add Skeleton Loader",
      description := "Implement a skeleton screen to improve perceived performance during data fetching.",
      impact := .medium,
      rationale := "Skeleton screens reduce user frustration by showing that content is being loaded." },
    fix := some (fun c => some ((c.attributes.getD []) ++ [⟨"loading", "skeleton"⟩])) },
  { id := "rule-empty-state",
    category := "ui/feedback",
    description := "Lists and grids should have an empty state illustration.",
    body := .component (some ["List", "Table", "Grid", "Feed"])
      (fun _ c => !(childAny c (fun child =>
        strContains child.name.jsLower "empty" || strContains child.name.jsLower "placeholder"))),
    suggestion := {
      action := "Add Empty State",
      description := "Design an empty state with an illustration and a call-to-action for when no data is present.",
      impact := .low,
      rationale := "A well-designed empty state guides the user on how to get started when a list is empty." } },
  { id := "rule-logging-auth",
    category := "logic/logging",
    description := "User authentication attempts should be logged.",
    body := .flow (some ["Login", "Signup", "Auth", "SignOut", "Password"])
      (fun _ f => !(f.steps.any (fun step =>
        strContains step.action.jsLower "log" ||
        (match step.stateTransition with
         | none => false
         | some st => strContains st.jsLower "audit")))),
    suggestion := {
      action := "Add Audit Logging",
      description := "Log the success and failure of this authentication attempt for security auditing.",
      impact := .high,
      rationale := "Logging authentication events is critical for security monitoring and troubleshooting." } },
  { id := "rule-error-reporting",
    category := "logic/monitoring",
    description := "Critical API errors should be reported to a monitoring service.",
    body := .flow (some ["API", "Fetch", "Submit", "Post"])
      (fun _ f => !(f.errorPaths.any (fun path =>
        strContains path.recovery.jsLower "report" ||
        strContains path.recovery.jsLower "sentry" ||
        strContains path.recovery.jsLower "log"))),
    suggestion := {
      action := "Add Error Reporting",
      description := "Integrate a service like Sentry to capture and report errors in this flow.",
      impact := .medium,
      rationale := "Automated error reporting helps identify and fix production issues before users report them." } },
  { id := "rule-performance-metrics",
    category := "logic/monitoring",
    description := "Core Web Vitals should be logged.",
    body := .global (fun m => .ok (!(microAny m (fun d =>
      strContains d.description.jsLower "vitals" ||
      strContains d.description.jsLower "performance")))),
    suggestion := {
      action := "Add Performance Monitoring",
      description := "Log LCP, FID, and CLS for real user monitoring.",
      impact := .low,
      rationale := "Monitoring performance helps ensure a smooth user experience across different devices." } },
  { id := "rule-a11y-labels",
    category := "a11y",
    description := "All form inputs must have associated labels or aria-labels.",
    body := .component (some ["Input", "Select", "Textarea", "Field", "Checkbox", "Radio"])
      (fun _ c => !(attrAny c (fun attr =>
        attr.name.jsLower == "label" || strContains attr.name.jsLower "aria-label"))),
    suggestion := {
      action := "Add ARIA Label",
      description := "Ensure this input has a descriptive label for screen readers.",
      impact := .high,
      rationale := "Proper labeling is essential for users who rely on assistive technologies." },
    fix := some (fun c => some ((c.attributes.getD []) ++ [⟨"aria-label", c.name⟩])) },
  { id := "rule-a11y-alt-text",
    category := "a11y",
    description := "All images must have alt text.",
    body := .component (some ["Image", "Img", "Avatar", "Logo", "Icon"])
      (fun _ c => !(attrAny c (fun attr =>
        attr.name.jsLower == "alt" || attr.name.jsLower == "aria-label"))),
    suggestion := {
      action := "Add Alt Text",
      description := "Provide a descriptive \x27alt\x27 attribute for this image.",
      impact := .high,
      rationale := "Alt text is the primary way screen reader users understand visual content." } },
  { id := "rule-a11y-skip-link",
    category := "a11y",
    description := "There should be a \x27Skip to main content\x27 link.",
    body := .global (fun m => .ok (!(microAny m (fun d =>
      strContains d.description.jsLower "skip to content" ||
      strContains d.description.jsLower "skip link")))),
    suggestion := {
      action := "Add Skip Link",
      description := "Implement a \x27Skip to main content\x27 link for keyboard users.",
      impact := .medium,
      rationale := "Allows keyboard users to bypass repetitive navigation and reach the main content faster." } },
  { id := "rule-a11y-heading-hierarchy",
    category := "a11y",
    description := "Page headings must follow a logical order.",
    body := .component (some ["Page", "View", "Screen"])
      (fun _ c => !(childAny c (fun child => child.name.jsLower == "h1"))),
    suggestion := {
      action := "Validate Heading Hierarchy",
      description := "Ensure this page has a single H1 and follows a logical H1 -> H2 -> H3 order.",
      impact := .low,
      rationale := "Correct heading structure is vital for screen reader navigation and SEO." } },
  { id := "rule-a11y-reduced-motion",
    category := "a11y",
    description := "Respect prefers-reduced-motion media query.",
    body := .global (fun m => .ok (!(microAny m (fun d =>
      strContains d.description.jsLower "reduced motion")))),
    suggestion := {
      action := "Implement Reduced Motion Support",
      description := "Ensure animations are disabled or simplified when the user has enabled \x27prefers-reduced-motion\x27.",
      impact := .low,
      rationale := "Essential for users with vestibular disorders who can experience motion sickness from animations." } },
  { id := "rule-seo-meta",
    category := "seo",
    description := "Every public page should have a title and meta description.",
    body := .component (some ["Page", "View", "Screen"])
      (fun _ c => !(attrAny c (fun attr =>
        strContains attr.name.jsLower "title" || strContains attr.name.jsLower "meta"))),
    suggestion := {
      action := "Add SEO Meta Tags",
      description := "Implement dynamic page titles and meta descriptions for better SEO and social sharing.",
      impact := .low,
      rationale := "Proper meta tags improve search engine visibility and how links appear when shared." } },
  { id := "rule-seo-og-tags",
    category := "seo",
    description := "Public pages should have Open Graph tags for social sharing.",
    body := .component (some ["Page", "View", "Screen"])
      (fun _ c => !(attrAny c (fun attr =>
        strContains attr.name.jsLower "og:" || strContains attr.name.jsLower "twitter:"))),
    suggestion := {
      action := "Add Open Graph Tags",
      description := "Implement og:title, og:description, and og:image tags for rich social previews.",
      impact := .low,
      rationale := "OG tags ensure your content looks professional when shared on platforms like Twitter, LinkedIn, or Facebook." } },
  { id := "rule-seo-sitemap",
    category := "seo",
    description := "Generate and submit a sitemap.xml.",
    body := .global (fun m => .ok (!(microAny m (fun d =>
      strContains d.description.jsLower "sitemap")))),
    suggestion := {
      action := "Generate Sitemap",
      description := "Add a task to generate a sitemap.xml for search engine indexing.",
      impact := .low,
      rationale := "Sitemaps help search engines find and index all pages on your site." } },
  { id := "rule-seo-canonical",
    category := "seo",
    description := "Avoid duplicate content with canonical URLs.",
    body := .component (some ["Page", "View", "Screen"])
      (fun _ c => !(attrAny c (fun attr => strContains attr.name.jsLower "canonical"))),
    suggestion := {
      action := "Add Canonical Link",
      description := "Include a <link rel=\x27canonical\x27> tag to specify the preferred version of the page.",
      impact := .low,
      rationale := "Prevents SEO issues caused by duplicate content across different URLs." } },
  { id := "rule-api-validation",
    category := "logic/security",
    description := "Input validation must be present on all API routes.",
    body := .flow (some ["API", "Post", "Put", "Patch"])
      (fun _ f => !(f.steps.any (fun step =>
        strContains step.action.jsLower "validate" ||
        strContains step.action.jsLower "check" ||
        strContains step.action.jsLower "verify" ||
        strContains step.action.jsLower "schema"))),
    suggestion := {
      action := "Add Input Validation",
      description := "Implement server-side schema validation (e.g., Zod, Joi) for this API flow.",
      impact := .high,
      rationale := "Server-side validation is the first line of defense against malicious or malformed data." } },
  { id := "rule-api-rate-limit",
    category := "logic/security",
    description := "API endpoints should have rate limiting.",
    body := .flow (some ["API", "Fetch", "Submit", "Post"])
      (fun _ f => !(f.steps.any (fun step =>
        strContains step.action.jsLower "rate limit" ||
        strContains step.action.jsLower "throttle"))),
    suggestion := {
      action := "Implement Rate Limiting",
      description := "Add rate limiting to this API interaction to prevent abuse and DOS attacks.",
      impact := .high,
      rationale := "Rate limiting is a fundamental security measure for public-facing APIs." } },
  { id := "rule-api-auth-check",
    category := "logic/security",
    description := "Check permissions on every request.",
    body := .flow (some ["API", "Fetch", "Submit", "Post", "Put", "Delete"])
      (fun _ f => !(f.steps.any (fun step =>
        strContains step.action.jsLower "auth" ||
        strContains step.action.jsLower "permission" ||
        strContains step.action.jsLower "authorize"))),
    suggestion := {
      action := "Add Authorization Check",
      description := "Verify user permissions (RBAC/ABAC) before processing this API request.",
      impact := .high,
      rationale := "Ensures that users can only access or modify data they are authorized to." } },
  { id := "rule-api-cors",
    category := "logic/security",
    description := "Configure CORS properly.",
    body := .global (fun m => .ok (!(microAny m (fun d =>
      strContains d.description.jsLower "cors")))),
    suggestion := {
      action := "Configure CORS",
      description := "Set up Cross-Origin Resource Sharing with a whitelist of trusted origins.",
      impact := .high,
      rationale := "Prevents unauthorized domains from making requests to your API." } },
  { id := "rule-db-soft-delete",
    category := "devops",
    description := "Soft deletes should be used instead of hard deletes.",
    body := .entity (some [""]) (fun _ e => !(e.properties.any (fun p =>
      strContains p.name.jsLower "deleted" || p.name.jsLower == "is_active"))),
    suggestion := {
      action := "Implement Soft Delete",
      description := "Add a \x27deleted_at\x27 timestamp to this entity instead of performing hard deletes.",
      impact := .medium,
      rationale := "Soft deletes allow for data recovery and maintain audit trails." } },
  { id := "rule-db-indexes",
    category := "devops",
    description := "Create indexes on frequently queried columns.",
    body := .entity (some [""]) (fun _ _ => true),
    suggestion := {
      action := "Review Database Indexes",
      description := "Ensure indexes exist for columns used in WHERE, JOIN, and ORDER BY clauses.",
      impact := .medium,
      rationale := "Proper indexing is critical for database performance as the dataset grows." } },
  { id := "rule-db-timestamps",
    category := "devops",
    description := "Include created_at and updated_at for every table.",
    body := .entity (some [""]) (fun _ e =>
      !(e.properties.any (fun p => p.name.jsLower == "created_at") &&
        e.properties.any (fun p => p.name.jsLower == "updated_at"))),
    suggestion := {
      action := "Add Timestamps",
      description := "Add created_at and updated_at columns to this entity.",
      impact := .low,
      rationale := "Timestamps are essential for auditing and tracking data changes over time." } },
  { id := "rule-db-migrations",
    category := "devops",
    description := "Use version-controlled migration scripts.",
    body := .global (fun m => .ok (!(microAny m (fun d =>
      strContains d.description.jsLower "migration")))),
    suggestion := {
      action := "Set Up Database Migrations",
      description := "Use a tool like Prisma, Knex, or TypeORM migrations to manage schema changes.",
      impact := .high,
      rationale := "Ensures that database schema changes are reproducible and versioned alongside code." } },
  { id := "rule-devops-health-check",
    category := "devops",
    description := "Services should have a health check endpoint.",
    body := .global (fun m => do
      let fs ← getColl m.flows
      .ok (!(fs.any (fun f => strContains f.name.jsLower "health")))),
    suggestion := {
      action := "Add Health Check",
      description := "Implement a /health endpoint that returns the service status.",
      impact := .medium,
      rationale := "Health checks are essential for container orchestration and monitoring." } },
  { id := "rule-devops-env-example",
    category := "devops",
    description := "Document all required env vars in a .env.example file.",
    body := .global (fun m => .ok (!(microAny m (fun d =>
      strContains d.description.jsLower ".env.example")))),
    suggestion := {
      action := "Create .env.example",
      description := "Ensure a .env.example file exists with all required environment variables.",
      impact := .low,
      rationale := "Helps other developers set up the project quickly and safely." } },
  { id := "rule-devops-graceful-shutdown",
    category := "devops",
    description := "Handle SIGTERM for graceful shutdown.",
    body := .global (fun m => .ok (!(microAny m (fun d =>
      strContains d.description.jsLower "shutdown")))),
    suggestion := {
      action := "Implement Graceful Shutdown",
      description := "Listen for SIGTERM and close database connections and servers cleanly.",
      impact := .medium,
      rationale := "Prevents data corruption and ensures that in-flight requests are completed before the process exits." } },
  { id := "rule-testing-coverage",
    category := "testing",
    description := "Critical business logic should have unit tests.",
    body := .flow (some [""]) (fun _ _ => true),
    suggestion := {
      action := "Add Unit Tests",
      description := "Implement unit tests for the core logic of this flow.",
      impact := .medium,
      rationale := "Tests ensure that changes don\x27t break existing functionality and improve code quality." } },
  { id := "rule-testing-e2e",
    category := "testing",
    description := "Critical user flows should have E2E tests.",
    body := .flow (some ["Login", "Signup", "Checkout", "Payment", "Auth"]) (fun _ _ => true),
    suggestion := {
      action := "Add E2E Tests",
      description := "Implement end-to-end tests using Playwright or Cypress for this critical flow.",
      impact := .high,
      rationale := "Verifies that the entire system works together from the user\x27s perspective." } },
  { id := "rule-security-password-hashing",
    category := "logic/security",
    description := "Passwords must never be stored in plain text.",
    body := .flow (some ["Signup", "Login", "Password", "Auth"])
      (fun _ f => !(f.steps.any (fun step =>
        strContains step.action.jsLower "hash" ||
        strContains step.action.jsLower "bcrypt" ||
        strContains step.action.jsLower "argon2"))),
    suggestion := {
      action := "Implement Password Hashing",
      description := "Use a strong hashing algorithm like bcrypt or argon2 before storing passwords.",
      impact := .high,
      rationale := "Storing plain-text passwords is a critical security vulnerability." } },
  { id := "rule-performance-lazy-loading",
    category := "ui/ux",
    description := "Heavy components and routes should be lazy-loaded.",
    body := .component (some ["Page", "View", "Screen", "Chart", "Dashboard"])
      (fun _ c => !(attrAny c (fun attr => strContains attr.name.jsLower "lazy"))),
    suggestion := {
      action := "Implement Lazy Loading",
      description := "Use React.lazy and Suspense for this route or heavy component.",
      impact := .medium,
      rationale := "Improves initial load time by splitting the bundle into smaller chunks." } },
  { id := "rule-devops-dockerfile",
    category := "devops",
    description := "The project should include a Dockerfile for containerization.",
    body := .global (fun m => .ok (!(microAny m (fun d =>
      strContains d.description.jsLower "docker")))),
    suggestion := {
      action := "Add Dockerfile",
      description := "Create a multi-stage Dockerfile for the application.",
      impact := .medium,
      rationale := "Containerization ensures consistent environments across development and production." } },
  { id := "rule-devops-ci-cd",
    category := "devops",
    description := "Set up a CI/CD pipeline for automated testing and deployment.",
    body := .global (fun m => .ok (!(microAny m (fun d =>
      strContains d.description.jsLower "ci/cd" ||
      strContains d.description.jsLower "github actions")))),
    suggestion := {
      action := "Set Up CI/CD",
      description := "Configure GitHub Actions or GitLab CI for automated builds and tests.",
      impact := .medium,
      rationale := "Automated pipelines reduce manual errors and speed up the delivery cycle." } },
  { id := "rule-security-sql-injection",
    category := "logic/security",
    description := "Prevent SQL injection by using parameterized queries.",
    body := .flow (some ["API", "Post", "Put", "Patch", "Delete", "Query", "Search"])
      (fun _ f => !(f.steps.any (fun step =>
        strContains step.action.jsLower "parameterized" ||
        strContains step.action.jsLower "prepared statement" ||
        strContains step.action.jsLower "orm" ||
        strContains step.action.jsLower "prisma" ||
        strContains step.action.jsLower "knex"))),
    suggestion := {
      action := "Use Parameterized Queries",
      description := "Ensure all database queries use parameterized inputs or a secure ORM to prevent SQL injection.",
      impact := .high,
      rationale := "SQL injection is a severe vulnerability that can lead to data breaches." } },
  { id := "rule-security-jwt-secret",
    category := "logic/security",
    description := "JWT secrets must be stored securely and rotated.",
    body := .flow (some ["Auth", "Login", "Token", "JWT"])
      (fun m _ => !(microAny m (fun d =>
        strContains d.description.jsLower "secret" ||
        strContains d.description.jsLower "vault"))),
    suggestion := {
      action := "Secure Secret Management",
      description := "Use environment variables or a secret manager (like AWS Secrets Manager) for JWT secrets.",
      impact := .high,
      rationale := "Hardcoded or poorly managed secrets can compromise the entire authentication system." } },
  { id := "rule-ux-inline-validation",
    category := "ui/ux",
    description := "Forms should have real-time inline validation.",
    body := .component (some ["Form", "Input", "Field"])
      (fun _ c => !(attrAny c (fun attr =>
        strContains attr.name.jsLower "validate" || strContains attr.name.jsLower "error"))),
    suggestion := {
      action := "Add Inline Validation",
      description := "Implement real-time validation feedback as the user types in form fields.",
      impact := .medium,
      rationale := "Immediate feedback helps users correct errors quickly, improving form completion rates." } },
  { id := "rule-security-rate-limiting",
    category := "logic/security",
    description := "API endpoints should have rate limiting.",
    body := .global (fun m => .ok (!(microAny m (fun d =>
      strContains d.description.jsLower "rate limit")))),
    suggestion := {
      action := "Implement Rate Limiting",
      description := "Add rate limiting to your API endpoints to prevent brute-force attacks and DoS.",
      impact := .high,
      rationale := "Protects the server from being overwhelmed by too many requests." } },
  { id := "rule-security-headers",
    category := "logic/security",
    description := "Use security headers (CSP, HSTS, etc.).",
    body := .global (fun m => .ok (!(microAny m (fun d =>
      strContains d.description.jsLower "header" ||
      strContains d.description.jsLower "csp")))),
    suggestion := {
      action := "Configure Security Headers",
      description := "Implement Content Security Policy (CSP), HSTS, and other security headers.",
      impact := .medium,
      rationale := "Reduces the risk of XSS and other common web vulnerabilities." } },
  { id := "rule-logic-idempotency",
    category := "logic",
    description := "Critical POST/PUT operations should be idempotent.",
    body := .flow (some ["Payment", "Order", "Create", "Post"])
      (fun _ f => !(f.steps.any (fun s =>
        strContains s.action.jsLower "idempotent" || strContains s.action.jsLower "key"))),
    suggestion := {
      action := "Implement Idempotency",
      description := "Use idempotency keys for critical state-changing operations.",
      impact := .high,
      rationale := "Prevents duplicate processing of the same request (e.g., double charging a user)." } }]

/-- `createSuggestion(rule, targetName?)` with the random id suffix made
explicit: the id is `ruleId-[target or "global"]-suffix`, the description
is the rule description with the target appended parenthetically, and
every suggestion starts `pending`. -/
def createSuggestion (r : Rule) (target : Option String) (suffix : String) :
    SmartSuggestion :=
  { id := r.id ++ "-" ++ target.getD "global" ++ "-" ++ suffix,
    ruleId := r.id,
    category := r.category,
    description :=
      match target with
      | some t => r.description ++ " (Target: " ++ t ++ ")"
      | none => r.description,
    impact := r.suggestion.impact,
    rationale := r.suggestion.rationale,
    action := r.suggestion.action,
    status := .pending,
    targetElement := target }

/-- One rule's emissions: the `(rule, targetElement)` pairs it pushes, in
push order.  Component rules visit every module, walking each tree
depth-first parent-first; flow and entity rules scan their collection in
model order; a global rule fires at most once with no target. -/
def emissionsFor (m : SystemModel) (r : Rule) :
    Except String (List (Rule × Option String)) :=
  match r.body with
  | .global cond => do
    let b ← cond m
    .ok (if b then [(r, none)] else [])
  | .component sel cond => do
    let mods ← getColl m.uiModules
    .ok (mods.flatMap (fun mod =>
      (walkForest mod.components).filterMap (fun c =>
        if matchesSelector c.name sel && cond m c then some (r, some c.name) else none)))
  | .flow sel cond => do
    let fls ← getColl m.flows
    .ok (fls.filterMap (fun f =>
      if matchesSelector f.name sel && cond m f then some (r, some f.name) else none))
  | .entity sel cond => do
    let ents ← getColl m.entities
    .ok (ents.filterMap (fun e =>
      if matchesSelector e.name sel && cond m e then some (r, some e.name) else none))

/-- Emissions of a list of rules in order; the first thrown error aborts
the run, exactly as an exception aborts `RULES.forEach`. -/
def runRules (m : SystemModel) : List Rule → Except String (List (Rule × Option String))
  | [] => .ok []
  | r :: rs => do
    let e ← emissionsFor m r
    let rest ← runRules m rs
    .ok (e ++ rest)

/-- Materialise emissions into suggestions: the k-th pushed suggestion
consumes the k-th drawn random suffix. -/
def assignIds (gen : Nat → String) : Nat → List (Rule × Option String) → List SmartSuggestion
  | _, [] => []
  | k, (r, t) :: es => createSuggestion r t (gen k) :: assignIds gen (k + 1) es

/-- `evaluateRules(model)` - the source function takes only the model
(no second parameter); `gen` is the oracle for the `Math.random()` id
suffixes. -/
def evaluateRules (gen : Nat → String) (m : SystemModel) :
    Except String (List SmartSuggestion) := do
  let es ← runRules m RULES
  .ok (assignIds gen 0 es)

mutual
/-- Fix application over a tree: every node (at any depth) whose name
equals the target name exactly gets the fix applied to its attribute
list; children and name are untouched (each catalog fix only pushes one
attribute). -/
def fixComp (t : String) (f : UIComponent → Option (List Attr)) :
    UIComponent → UIComponent
  | .mk n ch attrs prov =>
    let newAttrs := if n == t then f (.mk n ch attrs prov) else attrs
    .mk n
      (match ch with
       | none => none
       | some cs => some (fixCompList t f cs))
      newAttrs prov
def fixCompList (t : String) (f : UIComponent → Option (List Attr)) :
    UICompList → UICompList
  | .nil => .nil
  | .cons c cs => .cons (fixComp t f c) (fixCompList t f cs)
end

/-- `RULES.find(r => r.id === suggestion.ruleId)`. -/
def findRule (ruleId : String) : Option Rule :=
  RULES.find? (fun r => r.id == ruleId)

def Rule.isComponentRule (r : Rule) : Bool :=
  match r.body with
  | .component _ _ => true
  | _ => false

/-- The model value `applySuggestion(model, suggestion)` returns.  The
source makes a shallow copy `{...model}` and, for a component rule with
a fix and a target name, mutates every matching node's attribute list in
every module tree; the returned value therefore differs from the input
only in `uiModules`.  A flow or entity rule reaching its branch would
look its target up in the (possibly absent) collection but no flow,
entity or global rule in the catalog carries a fix, so those branches
can never apply one; rules without a fix, unknown rule ids, and
component suggestions without a target all return the copy unchanged. -/
def applySuggestion (m : SystemModel) (s : SmartSuggestion) :
    Except String SystemModel :=
  match findRule s.ruleId with
  | none => .ok m
  | some r =>
    match r.fix with
    | none => .ok m
    | some f =>
      match r.body, s.targetElement with
      | .component _ _, some t => do
        let mods ← getColl m.uiModules
        .ok { m with uiModules := some (mods.map (fun mod =>
          { mod with components := mod.components.map (fixComp t f) })) }
      | .flow _ _, some _ => do
        let _ ← getColl m.flows
        .ok m
      | .entity _ _, some _ => do
        let _ ← getColl m.entities
        .ok m
      | .global _, _ => .ok m
      | _, none => .ok m

/-- The value the caller's own model variable holds after
`applySuggestion(model, suggestion)` returns, under JavaScript heap
semantics.  `const newModel = {...model}` copies field references, so
`newModel.uiModules` is the very array (of the very module objects and
component trees) the caller's model still points to; every catalog fix
mutates only component objects reached through that shared structure and
never reassigns a field of `newModel`.  Hence after the call the
caller's model agrees with the returned model on `uiModules` (the shared
trees, as mutated) and keeps its own value everywhere else. -/
def callerModelAfterApply (m : SystemModel) (s : SmartSuggestion) :
    Except String SystemModel := do
  let r ← applySuggestion m s
  .ok { m with uiModules := r.uiModules }

/-- Insertion-ordered grouping, the behaviour of building a `Map` whose
values are accumulated arrays: keys appear in first-encounter order and
each group lists its elements in input order. -/
def insertGrouped (k : String) (a : α) :
    List (String × List α) → List (String × List α)
  | [] => [(k, [a])]
  | (k', l) :: t =>
    if k' == k then (k', l ++ [a]) :: t else (k', l) :: insertGrouped k a t

def groupByKey (key : α → String) (l : List α) : List (String × List α) :=
  l.foldl (fun acc a => insertGrouped (key a) a acc) []

/-- The attributes named `access` or `visibility` of a component
(absent attribute list behaves as empty: the length test fails either
way). -/
def accessAttrsOf (c : UIComponent) : List Attr :=
  (c.attributes.getD []).filter (fun a =>
    a.name.jsLower == "access" || a.name.jsLower == "visibility")

/-- The access-conflict record for one component of one module. -/
def mkAccessRec (mod : UIModule) (c : UIComponent) : Contradiction :=
  { id := "contra-access-" ++ c.name,
    description := "Conflicting access levels for component: " ++ c.name,
    conflictingPoints := (accessAttrsOf c).map (fun a =>
      { text := "Access set to \x27" ++ a.value ++ "\x27",
        provenance := mod.provenance.getD
          { file := "unknown", context := some c.name } }),
    resolutionSuggestion := "Standardize the access level to either \x27public\x27 or \x27private/protected\x27 based on security requirements.",
    severity := .high }

def mkAccessOpt (mod : UIModule) (c : UIComponent) : Option Contradiction :=
  if 1 < (accessAttrsOf c).length &&
      1 < (((accessAttrsOf c).map (fun a => a.value.jsLower)).dedup).length then
    some (mkAccessRec mod c)
  else none

/-- Scan 1, access conflicts: only each module's direct (top-level)
components are examined - the scan does not recurse into children. -/
def accessScan (mods : List UIModule) : List Contradiction :=
  mods.flatMap (fun mod => mod.components.filterMap (mkAccessOpt mod))

def normTrigger (f : UserFlow) : String := f.trigger.jsLower.jsTrim

def mkFlowPoint (f : UserFlow) : ConflictPoint :=
  { text := "Flow \"" ++ f.name ++ "\" leads to: " ++ f.outcome,
    provenance := f.provenance.getD { file := "unknown", context := some f.name } }

def mkFlowRec (k : String) (fs : List UserFlow) : Contradiction :=
  { id := "contra-flow-" ++ wsDash k,
    description := "Inconsistent outcomes for trigger: \"" ++ k ++ "\"",
    conflictingPoints := fs.map mkFlowPoint,
    resolutionSuggestion := "Consolidate these flows into a single consistent behavior or clearly define the conditional logic that leads to different outcomes.",
    severity := .medium }

def mkFlowOpt (p : String × List UserFlow) : Option Contradiction :=
  if 1 < p.2.length &&
      1 < ((p.2.map (fun f => f.outcome.jsLower.jsTrim)).dedup).length then
    some (mkFlowRec p.1 p.2)
  else none

/-- Scan 2, flow outcome conflicts: group flows by normalised trigger;
a group of two or more flows whose normalised outcomes are not all equal
yields one medium contradiction listing every flow of the group. -/
def flowConflictScan (fls : List UserFlow) : List Contradiction :=
  (groupByKey normTrigger fls).filterMap mkFlowOpt

/-- One property occurrence: (normalised property name, entity name,
declared type, entity provenance). -/
def propOccs (ents : List Entity) : List (String × String × String × Option Provenance) :=
  ents.flatMap (fun e =>
    e.properties.map (fun p => (p.name.jsLower.jsTrim, e.name, p.type, e.provenance)))

def criticalProps : List String := ["id", "email", "userid", "createdat", "updatedat", "status"]

/-- Scan 3, critical-property type conflicts. -/
def typeScan (ents : List Entity) : List Contradiction :=
  (groupByKey (fun o => o.1) (propOccs ents)).filterMap (fun p =>
    if 1 < ((p.2.map (fun o => o.2.2.1.jsLower.jsTrim)).dedup).length &&
        1 < p.2.length then
      if criticalProps.contains p.1 then
        some
          { id := "contra-type-" ++ p.1,
            description := "Type mismatch for common property: \"" ++ p.1 ++ "\"",
            conflictingPoints := p.2.map (fun o =>
              { text := "Entity \"" ++ o.2.1 ++ "\" defines it as " ++ o.2.2.1,
                provenance := o.2.2.2.getD
                  { file := "unknown", context := some o.2.1 } }),
            resolutionSuggestion := "Ensure \"" ++ p.1 ++ "\" has a consistent data type across all entities to prevent integration issues.",
            severity := .medium }
      else none
    else none)

/-- Scan 4, permission leakage: admin-named or admin-triggered flows with
a public/guest step.  The provenance fallback here carries no context. -/
def permScan (fls : List UserFlow) : List Contradiction :=
  fls.filterMap (fun f =>
    let isAdminFlow := strContains f.name.jsLower "admin" ||
      strContains f.trigger.jsLower "admin"
    let hasPublicStep := f.steps.any (fun s =>
      strContains s.action.jsLower "public" || strContains s.action.jsLower "guest")
    if isAdminFlow && hasPublicStep then
      some
        { id := "contra-perm-" ++ f.name,
          description := "Potential permission leakage in Admin flow: " ++ f.name,
          conflictingPoints := [
            { text := "Flow is identified as Admin-only",
              provenance := f.provenance.getD { file := "unknown" } },
            { text := "Flow contains steps accessible to public/guests",
              provenance := f.provenance.getD { file := "unknown" } }],
          resolutionSuggestion := "Review the flow steps to ensure that sensitive admin actions are not exposed to unauthorized users.",
          severity := .high }
    else none)

/-- The source's orientation-sensitive opposite-term test for a
constraint pair `(c1, c2)` with `c1` earlier in the list: the earlier
description must contain the first term and the later one the second. -/
def semOpposed (c1 c2 : Constraint) : Bool :=
  let d1 := c1.description.jsLower
  let d2 := c2.description.jsLower
  (strContains d1 "real-time" && strContains d2 "batch") ||
  (strContains d1 "synchronous" && strContains d2 "asynchronous") ||
  (strContains d1 "mobile-only" && strContains d2 "desktop-only")

/-- All index pairs `i < j` over the enumerated constraint list, in the
order the two nested `forEach` loops visit them. -/
def enumPairs (cs : List Constraint) :
    List ((Nat × Constraint) × (Nat × Constraint)) :=
  cs.enum.flatMap (fun a =>
    cs.enum.filterMap (fun b => if a.1 < b.1 then some (a, b) else none))

def mkSemRec (i : Nat) (c1 : Constraint) (j : Nat) (c2 : Constraint) : Contradiction :=
  { id := "contra-semantic-" ++ toString i ++ "-" ++ toString j,
    description := "Contradictory system constraints detected",
    conflictingPoints := [
      { text := c1.description, provenance := { file := "System Constraints" } },
      { text := c2.description, provenance := { file := "System Constraints" } }],
    resolutionSuggestion := "Clarify the system architecture: choose between the conflicting constraints (e.g., real-time vs batch).",
    severity := .medium }

def mkSemOpt (q : (Nat × Constraint) × (Nat × Constraint)) : Option Contradiction :=
  if semOpposed q.1.2 q.2.2 then some (mkSemRec q.1.1 q.1.2 q.2.1 q.2.2) else none

/-- Scan 5, semantic constraint conflicts over ordered index pairs. -/
def semScan (cs : List Constraint) : List Contradiction :=
  (enumPairs cs).filterMap mkSemOpt

/-- Scan 6, state scope conflicts. -/
def stateScan (sts : List StateDefinition) : List Contradiction :=
  (groupByKey (fun s => s.name.jsLower.jsTrim) sts).filterMap (fun p =>
    if 1 < p.2.length && 1 < ((p.2.map (fun s => s.scope)).dedup).length then
      some
        { id := "contra-state-" ++ p.1,
          description := "Conflicting scopes for state: " ++ p.1,
          conflictingPoints := p.2.map (fun s =>
            { text := "State \"" ++ s.name ++ "\" set to " ++ s.scope.str ++ " scope",
              provenance := { file := "System Model", context := some s.description } }),
          resolutionSuggestion := "Ensure the state has a consistent scope (global, component, or server) across all definitions.",
          severity := .medium }
    else none)

/-- `detectContradictions(model)`: the six scans in source order, pushed
into one list.  The collections are read in the order the scans first
touch them, so the first absent one determines the thrown error. -/
def detectContradictions (m : SystemModel) : Except String (List Contradiction) := do
  let mods ← getColl m.uiModules
  let fls ← getColl m.flows
  let ents ← getColl m.entities
  let cons ← getColl m.constraints
  let sts ← getColl m.stateDefinitions
  .ok (accessScan mods ++ flowConflictScan fls ++ typeScan ents ++
    permScan fls ++ semScan cons ++ stateScan sts)

/-- Duplicate-entity scan: groups of two or more same-normalised-name
entities yield one medium-impact record listing every occurrence. -/
def entityDupScan (ents : List Entity) : List DuplicateContent :=
  (groupByKey (fun e => e.name.jsLower.jsTrim) ents).filterMap (fun p =>
    match p.2 with
    | e0 :: _ :: _ =>
      some
        { id := "dup-entity-" ++ p.1,
          elementName := e0.name,
          elementType := .entity,
          occurrences := p.2.map (fun e =>
            { file := provFileOrUnknown e.provenance,
              context := "Entity definition: " ++ e.name }),
          impact := .medium,
          suggestion := "Merge these " ++ toString p.2.length ++
            " definitions of \"" ++ e0.name ++ "\" into a single source of truth." }
    | _ => none)

/-- Duplicate-flow scan. -/
def flowDupScan (fls : List UserFlow) : List DuplicateContent :=
  (groupByKey (fun f => f.name.jsLower.jsTrim) fls).filterMap (fun p =>
    match p.2 with
    | f0 :: _ :: _ =>
      some
        { id := "dup-flow-" ++ wsDash p.1,
          elementName := f0.name,
          elementType := .flow,
          occurrences := p.2.map (fun f =>
            { file := provFileOrUnknown f.provenance,
              context := "Flow definition: " ++ f.name }),
          impact := .low,
          suggestion := "Review if these " ++ toString p.2.length ++
            " flows are identical or if they should be renamed to reflect distinct scenarios." }
    | _ => none)

/-- One component occurrence: (normalised component name, owning module
name, owning module provenance file). -/
def compOccs (mods : List UIModule) : List (String × String × String) :=
  mods.flatMap (fun mod =>
    (walkForest mod.components).map (fun c =>
      (c.name.jsLower.jsTrim, mod.name, provFileOrUnknown mod.provenance)))

def compGroups (mods : List UIModule) : List (String × List (String × String × String)) :=
  groupByKey (fun o => o.1) (compOccs mods)

/-- The duplicate-component record for one group (key = normalised
component name). -/
def mkCompRec (p : String × List (String × String × String)) : DuplicateContent :=
  { id := "dup-comp-" ++ p.1,
    elementName := p.1,
    elementType := .component,
    occurrences := p.2.map (fun o =>
      { file := o.2.2, context := "Found in module: " ++ o.2.1 }),
    impact := .low,
    suggestion := "Component \"" ++ p.1 ++
      "\" is defined in multiple modules. Consider making it a shared/global component." }

def mkCompOpt (p : String × List (String × String × String)) :
    Option DuplicateContent :=
  if 1 < p.2.length && 1 < ((p.2.map (fun o => o.2.1)).dedup).length then
    some (mkCompRec p)
  else none

/-- Duplicate-component scan: every node of every module tree is
recorded with its owning module's name; a same-normalised-name group is
flagged only when its occurrences span more than one distinct module
NAME (a `Set` of the recorded module names). -/
def compDupScan (mods : List UIModule) : List DuplicateContent :=
  (compGroups mods).filterMap mkCompOpt

/-- `detectDuplicates(model)`: the three scans in source order. -/
def detectDuplicates (m : SystemModel) : Except String (List DuplicateContent) := do
  let ents ← getColl m.entities
  let fls ← getColl m.flows
  let mods ← getColl m.uiModules
  .ok (entityDupScan ents ++ flowDupScan fls ++ compDupScan mods)

/-- The projection of a suggestion that is independent of id generation. -/
def suggestionSig (s : SmartSuggestion) : String × Option String × String :=
  (s.ruleId, s.targetElement, s.description)

/-- The signature an emission deterministically produces. -/
def emissionSig (e : Rule × Option String) : String × Option String × String :=
  (e.1.id, e.2,
    match e.2 with
    | some t => e.1.description ++ " (Target: " ++ t ++ ")"
    | none => e.1.description)

/-- A fixed id-suffix oracle used for concrete runs. -/
def genR : Nat → String := fun _ => "r"

/-- A model in which every collection is present and empty. -/
def emptyModel : SystemModel :=
  { entities := some [], stateDefinitions := some [], uiModules := some [],
    flows := some [], microDetails := some [], constraints := some [] }

/-- A model in which every optional collection is absent. -/
def absentModel : SystemModel :=
  { entities := none, stateDefinitions := none, uiModules := none,
    flows := none, microDetails := none, constraints := none }

/-- A model whose only collection content is one module with one
icon-less navigation component. -/
def mC1 : SystemModel :=
  { emptyModel with uiModules := some [
      { name := "Main", purpose := "Navigation shell",
        components := [.mk "NavBar" none none none] }] }

/-- An accepted suggestion produced by `rule-icon-nav-item` against
`NavBar`. -/
def sC1 : SmartSuggestion :=
  { id := "rule-icon-nav-item-NavBar-r", ruleId := "rule-icon-nav-item",
    category := "ui/icons",
    description := "Every navigation item should have an associated icon. (Target: NavBar)",
    impact := .medium,
    rationale := "Icons improve scannability and user experience in navigation menus.",
    action := "Add Lucide icon", status := .accepted,
    targetElement := some "NavBar" }

/-- `mC1` after the `rule-icon-nav-item` fix ran on `NavBar`: the
component gained an `icon` attribute (no map key occurs in `navbar`, so
the fallback icon is chosen). -/
def mC1' : SystemModel :=
  { emptyModel with uiModules := some [
      { name := "Main", purpose := "Navigation shell",
        components := [.mk "NavBar" none (some [⟨"icon", "HelpCircle"⟩]) none] }] }

/-- An extra (user-authored) global rule that always fires, as the
RuleEditor creates them. -/
def customRule1 : Rule :=
  { id := "custom-1", category := "custom",
    description := "Custom always-on rule.",
    body := .global (fun _ => .ok true),
    suggestion := {
      action := "Do it", description := "Custom always-on rule.",
      impact := .medium, rationale := "User-authored." } }

/-- Modelled from the claim's wording (C5): the two descriptions jointly
contain - in either order across the pair - one of the fixed
opposite-term pairs.  This is the claim-side predicate, to be compared
with the source-side `semOpposed`. -/
def specJointlyOpposite (c1 c2 : Constraint) : Bool :=
  let d1 := c1.description.jsLower
  let d2 := c2.description.jsLower
  (strContains d1 "real-time" && strContains d2 "batch") ||
  (strContains d2 "real-time" && strContains d1 "batch") ||
  (strContains d1 "synchronous" && strContains d2 "asynchronous") ||
  (strContains d2 "synchronous" && strContains d1 "asynchronous") ||
  (strContains d1 "mobile-only" && strContains d2 "desktop-only") ||
  (strContains d2 "mobile-only" && strContains d1 "desktop-only")

def cC5a : Constraint := { description := "Nightly batch processing of reports" }

def cC5b : Constraint := { description := "Dashboard must show real-time updates" }

/-- Constraints listed with the `batch` description first. -/
def mC5 : SystemModel := { emptyModel with constraints := some [cC5a, cC5b] }

/-- The same two constraints in the orientation the source checks. -/
def mC5ok : SystemModel := { emptyModel with constraints := some [cC5b, cC5a] }

/-- A depth-2 component with conflicting access attributes. -/
def panelC6 : UIComponent :=
  .mk "Panel" none (some [⟨"access", "public"⟩, ⟨"visibility", "admin"⟩]) none

def wrapperC6 : UIComponent := .mk "Wrapper" (some (.cons panelC6 .nil)) none none

def modC6 : UIModule := { name := "Main", purpose := "p", components := [wrapperC6] }

def mC6 : SystemModel := { emptyModel with uiModules := some [modC6] }

/-- The same conflicting component placed at top level of its module. -/
def modC6top : UIModule := { name := "Main", purpose := "p", components := [panelC6] }

def mC6top : SystemModel := { emptyModel with uiModules := some [modC6top] }

def flowCheckout : UserFlow :=
  { name := "Checkout", trigger := "submit order", steps := [], errorPaths := [],
    outcome := "order placed" }

def flowRetry : UserFlow :=
  { name := "CheckoutRetry", trigger := "submit order", steps := [], errorPaths := [],
    outcome := "order queued" }

def mC7 : SystemModel := { emptyModel with flows := some [flowCheckout, flowRetry] }

/-- Two distinct module values sharing one module name, each holding a
`Card` component. -/
def modC8a : UIModule :=
  { name := "Shared", purpose := "left pane", components := [.mk "Card" none none none] }

def modC8b : UIModule :=
  { name := "Shared", purpose := "right pane", components := [.mk "Card" none none none] }

def mC8 : SystemModel := { emptyModel with uiModules := some [modC8a, modC8b] }

/-- Two modules with distinct names, each holding a `Card` component. -/
def modC8c : UIModule :=
  { name := "Home", purpose := "home", components := [.mk "Card" none none none] }

def modC8d : UIModule :=
  { name := "Admin", purpose := "admin", components := [.mk "Card" none none none] }

def mC8ok : SystemModel := { emptyModel with uiModules := some [modC8c, modC8d] }

/-- Scenario A: a `DeleteButton` carrying an `icon` attribute and nothing
else. -/
def deleteButtonC9 : UIComponent :=
  .mk "DeleteButton" none (some [⟨"icon", "Trash2"⟩]) none

def modC9 : UIModule := { name := "Main", purpose := "p", components := [deleteButtonC9] }

def mC9 : SystemModel := { emptyModel with uiModules := some [modC9] }

/-- A model whose `microDetails` collection is absent while every
iterated collection is present. -/
def mC3micro : SystemModel := { emptyModel with microDetails := none }

/-- A suggestion naming a fix-bearing component rule but carrying no
target element. -/
def sC10 : SmartSuggestion :=
  { id := "rule-icon-nav-item-global-r", ruleId := "rule-icon-nav-item",
    category := "ui/icons", description := "d", impact := .medium,
    rationale := "r", action := "a", status := .accepted, targetElement := none }

/-- Whether a rule fires against one concrete component node: the node
name matches the selector and the condition holds.  `evaluateRules`
emits one suggestion per node for which this is true. -/
def componentFires (sel : Selector) (cond : SystemModel → UIComponent → Bool)
    (m : SystemModel) (c : UIComponent) : Bool :=
  matchesSelector c.name sel && cond m c

theorem except_bind_ok {ε α β : Type} (a : α) (f : α → Except ε β) :
    ((Except.ok a : Except ε α) >>= f) = f a := rfl

theorem except_bind_error {ε α β : Type} (e : ε) (f : α → Except ε β) :
    ((Except.error e : Except ε α) >>= f) = .error e := rfl

/-- Every emission of a rule reached by the run ends up in the run's
emission list. -/
theorem runRules_mem {m : SystemModel} {r : Rule}
    {E : List (Rule × Option String)} {e : Rule × Option String} :
    ∀ {rs : List Rule} {L}, runRules m rs = .ok L → r ∈ rs →
      emissionsFor m r = .ok E → e ∈ E → e ∈ L := by
  intro rs
  induction rs with
  | nil =>
    intro L _ hr _ _
    exact absurd hr (List.not_mem_nil r)
  | cons r' rs ih =>
    intro L h hr hE he
    rw [runRules] at h
    cases hE' : emissionsFor m r' with
    | error msg =>
      rw [hE', except_bind_error] at h
      exact Except.noConfusion h
    | ok E' =>
      rw [hE', except_bind_ok] at h
      cases hrest : runRules m rs with
      | error msg =>
        rw [hrest, except_bind_error] at h
        exact Except.noConfusion h
      | ok L' =>
        rw [hrest, except_bind_ok] at h
        have hL : L = E' ++ L' := (Except.ok.inj h).symm
        subst hL
        rcases List.mem_cons.mp hr with rfl | hr'
        · have hEE : E = E' := by
            rw [hE'] at hE
            exact (Except.ok.inj hE).symm
          subst hEE
          exact List.mem_append_left _ he
        · exact List.mem_append_right _ (ih hrest hr' hE he)

/-- Id assignment only fills in the id field: the signature of the
produced suggestions is the emissions' signature, whatever the oracle. -/
theorem assignIds_map_sig (gen : Nat → String) :
    ∀ (es : List (Rule × Option String)) (k : Nat),
      (assignIds gen k es).map suggestionSig = es.map emissionSig := by
  intro es
  induction es with
  | nil => intro k; rfl
  | cons e es ih =>
    intro k
    obtain ⟨r, t⟩ := e
    simp [assignIds, ih, suggestionSig, emissionSig, createSuggestion]

/-- Every emission yields a suggestion carrying its rule id and target. -/
theorem assignIds_mem (gen : Nat → String) :
    ∀ {es : List (Rule × Option String)} (k : Nat) {e : Rule × Option String},
      e ∈ es → ∃ s ∈ assignIds gen k es, s.ruleId = e.1.id ∧ s.targetElement = e.2 := by
  intro es
  induction es with
  | nil =>
    intro k e h
    exact absurd h (List.not_mem_nil e)
  | cons e' es ih =>
    intro k e h
    obtain ⟨r, t⟩ := e'
    rcases List.mem_cons.mp h with rfl | h'
    · exact ⟨createSuggestion r t (gen k), List.mem_cons_self _ _, rfl, rfl⟩
    · obtain ⟨s, hs, h1, h2⟩ := ih (k + 1) h'
      exact ⟨s, List.mem_cons_of_mem _ hs, h1, h2⟩

/-- C4 (confirmed): `evaluateRules` run twice on the same unmutated model
yields suggestion lists equal up to id generation - whatever suffixes the
two runs draw from `Math.random()` (the oracles `gen₁`, `gen₂`), the
lists have the same length, the same order and the same
(ruleId, targetElement, description) triple at every position. -/
theorem evaluateRules_deterministic_up_to_ids (gen₁ gen₂ : Nat → String)
    (m : SystemModel) :
    (evaluateRules gen₁ m).map (List.map suggestionSig)
      = (evaluateRules gen₂ m).map (List.map suggestionSig) := by
  unfold evaluateRules
  cases h : runRules m RULES with
  | error msg => rfl
  | ok es =>
    rw [except_bind_ok, except_bind_ok]
    show Except.ok ((assignIds gen₁ 0 es).map suggestionSig)
      = Except.ok ((assignIds gen₂ 0 es).map suggestionSig)
    rw [assignIds_map_sig, assignIds_map_sig]

/-- C1 (code_bug): `applySuggestion` does not leave the caller's model
unchanged.  On a model with one icon-less `NavBar` and the accepted
`rule-icon-nav-item` suggestion, the function returns the mutated model
`mC1'`, and because `{...model}` is only a shallow copy whose nested
structures stay shared, the caller's own model afterwards holds that
same mutated value, which differs from the original input. -/
theorem applySuggestion_mutates_callers_model :
    applySuggestion mC1 sC1 = .ok mC1' ∧
    callerModelAfterApply mC1 sC1 = .ok mC1' ∧ mC1' ≠ mC1 := by decide

/-- C2 (code_bug): the source's `evaluateRules` accepts no second
parameter, so extra rules passed by `analyzeDocumentation` are dropped:
on the empty-but-present model the run returns a non-empty suggestion
list in which every `ruleId` comes from the built-in catalog and none is
the extra global rule `custom-1` - though that rule's condition holds
on the model, no suggestion for it is ever produced. -/
theorem evaluateRules_ignores_extra_rules :
    (evaluateRules genR emptyModel).toOption.any (fun l =>
      !l.isEmpty && l.all (fun s =>
        RULES.any (fun r => r.id == s.ruleId) && (s.ruleId != customRule1.id))) = true
      := by decide

/-- C3 (counterexample): on the model with every optional collection
absent, all three operations throw (`undefined.forEach` /
`undefined.some` raise a TypeError) instead of treating absence as
empty. -/
theorem engine_throws_when_collections_absent :
    (evaluateRules genR absentModel).isOk = false ∧
    (detectContradictions absentModel).isOk = false ∧
    (detectDuplicates absentModel).isOk = false := by decide

/-- C10 (confirmed): when a suggestion's rule resolves to a
component-trigger rule that defines a fix but the suggestion carries no
target element, no branch of `applySuggestion` runs the fix and the
shallow copy it returns is value-equal to the input model. -/
theorem applySuggestion_no_target_is_noop (m : SystemModel) (s : SmartSuggestion)
    (h : ((findRule s.ruleId).map (fun r => r.isComponentRule && r.fix.isSome)).getD false
      = true)
    (ht : s.targetElement = none) :
    applySuggestion m s = .ok m := by
  unfold applySuggestion
  cases hf : findRule s.ruleId with
  | none => rfl
  | some r =>
    rw [hf] at h
    simp only [Option.map_some', Option.getD_some, Bool.and_eq_true] at h
    obtain ⟨hcomp, hfix⟩ := h
    cases hfx : r.fix with
    | none =>
      rw [hfx] at hfix
      exact absurd hfix (by simp)
    | some f =>
      cases hb : r.body with
      | component sel cond => simp only [hfx, hb, ht]
      | global cond => simp [Rule.isComponentRule, hb] at hcomp
      | flow sel cond => simp [Rule.isComponentRule, hb] at hcomp
      | entity sel cond => simp [Rule.isComponentRule, hb] at hcomp

theorem applySuggestion_no_target_is_noop_witness :
    applySuggestion emptyModel sC10 = .ok emptyModel :=
  applySuggestion_no_target_is_noop emptyModel sC10 (by decide) rfl

/-- Every catalog rule's emissions succeed once the three iterated
collections are present: only global conditions can throw, and the only
throwing one (`rule-devops-health-check`) reads `model.flows`. -/
theorem emissionsFor_isOk (m : SystemModel) (us : List UIModule)
    (fs : List UserFlow) (es : List Entity) (hU : m.uiModules = some us)
    (hF : m.flows = some fs) (hE : m.entities = some es) :
    ∀ r ∈ RULES, ∃ E, emissionsFor m r = .ok E := by
  intro r hr
  fin_cases hr <;>
    simp [emissionsFor, getColl, hU, hF, hE, except_bind_ok,
      ruleIconStandardActions, ruleTooltipIconOnly]

/-- A rule list whose members all emit successfully runs successfully. -/
theorem runRules_isOk {m : SystemModel} :
    ∀ {rs : List Rule}, (∀ r ∈ rs, ∃ E, emissionsFor m r = .ok E) →
      ∃ L, runRules m rs = .ok L := by
  intro rs
  induction rs with
  | nil => intro _; exact ⟨[], rfl⟩
  | cons r rs ih =>
    intro h
    obtain ⟨E, hE⟩ := h r (List.mem_cons_self r rs)
    obtain ⟨L, hL⟩ := ih (fun r' hr' => h r' (List.mem_cons_of_mem _ hr'))
    exact ⟨E ++ L, by rw [runRules, hE, except_bind_ok, hL, except_bind_ok]⟩

/-- C3 (amended): the three operations are total whenever the five
collections they iterate (uiModules, flows, entities, constraints,
stateDefinitions) are present, however large or empty; `microDetails`
may be absent - every access to it is guarded and absence behaves as
empty.  (The original claim fails: absence of an iterated collection
throws, see the counterexample.) -/
theorem engine_total_when_iterated_collections_present (gen : Nat → String)
    (m : SystemModel) (hU : m.uiModules.isSome = true) (hF : m.flows.isSome = true)
    (hE : m.entities.isSome = true) (hC : m.constraints.isSome = true)
    (hS : m.stateDefinitions.isSome = true) :
    (evaluateRules gen m).isOk = true ∧ (detectContradictions m).isOk = true ∧
      (detectDuplicates m).isOk = true := by
  obtain ⟨us, hU⟩ := Option.isSome_iff_exists.mp hU
  obtain ⟨fs, hF⟩ := Option.isSome_iff_exists.mp hF
  obtain ⟨es, hE⟩ := Option.isSome_iff_exists.mp hE
  obtain ⟨cs, hC⟩ := Option.isSome_iff_exists.mp hC
  obtain ⟨ss, hS⟩ := Option.isSome_iff_exists.mp hS
  refine ⟨?_, ?_, ?_⟩
  · obtain ⟨L, hL⟩ := runRules_isOk (emissionsFor_isOk m us fs es hU hF hE)
    unfold evaluateRules
    rw [hL, except_bind_ok]
    rfl
  · unfold detectContradictions
    rw [hU, hF, hE, hC, hS]
    rfl
  · unfold detectDuplicates
    rw [hU, hF, hE]
    rfl

theorem engine_total_witness :
    (evaluateRules genR mC3micro).isOk = true ∧
    (detectContradictions mC3micro).isOk = true ∧
    (detectDuplicates mC3micro).isOk = true :=
  engine_total_when_iterated_collections_present genR mC3micro
    (by decide) (by decide) (by decide) (by decide) (by decide)

/-- A qualifying top-level component's record is in the access scan. -/
theorem accessScan_mem {mods : List UIModule} {mod : UIModule} {c : UIComponent}
    (hmod : mod ∈ mods) (hc : c ∈ mod.components)
    (hfire : mkAccessOpt mod c = some (mkAccessRec mod c)) :
    mkAccessRec mod c ∈ accessScan mods := by
  unfold accessScan
  exact List.mem_flatMap.mpr ⟨mod, hmod, List.mem_filterMap.mpr ⟨c, hc, hfire⟩⟩

/-- C6 (amended): for every component that is a DIRECT child of a UI
module (the scan does not descend into nested components), carrying at
least two access/visibility attributes with at least two distinct
case-insensitive values, `detectContradictions` emits the high-severity
contradiction listing one point per such attribute. -/
theorem detectContradictions_access_conflict (m : SystemModel)
    (mods : List UIModule) (fls : List UserFlow) (ents : List Entity)
    (cs : List Constraint) (sts : List StateDefinition)
    (hU : m.uiModules = some mods) (hF : m.flows = some fls)
    (hE : m.entities = some ents) (hC : m.constraints = some cs)
    (hS : m.stateDefinitions = some sts)
    (mod : UIModule) (c : UIComponent) (hmod : mod ∈ mods)
    (hc : c ∈ mod.components)
    (hlen : 2 ≤ (accessAttrsOf c).length)
    (hdis : 2 ≤ ((accessAttrsOf c).map (fun a => a.value.jsLower)).dedup.length) :
    ∃ L, detectContradictions m = .ok L ∧ mkAccessRec mod c ∈ L ∧
      (mkAccessRec mod c).severity = .high ∧
      (mkAccessRec mod c).conflictingPoints.length = (accessAttrsOf c).length := by
  have hfire : mkAccessOpt mod c = some (mkAccessRec mod c) := by
    unfold mkAccessOpt
    simp [Nat.lt_of_lt_of_le Nat.one_lt_two hlen,
      Nat.lt_of_lt_of_le Nat.one_lt_two hdis]
  refine ⟨accessScan mods ++ (flowConflictScan fls ++ (typeScan ents ++
      (permScan fls ++ (semScan cs ++ stateScan sts)))), ?_, ?_, rfl, ?_⟩
  · unfold detectContradictions
    rw [hU, hF, hE, hC, hS]
    simp only [getColl, except_bind_ok, List.append_assoc]
  · exact List.mem_append_left _ (accessScan_mem hmod hc hfire)
  · simp [mkAccessRec]

theorem detectContradictions_access_conflict_witness :
    ∃ L, detectContradictions mC6top = .ok L ∧
      mkAccessRec modC6top panelC6 ∈ L ∧
      (mkAccessRec modC6top panelC6).severity = .high ∧
      (mkAccessRec modC6top panelC6).conflictingPoints.length
        = (accessAttrsOf panelC6).length :=
  detectContradictions_access_conflict mC6top [modC6top] [] [] [] []
    rfl rfl rfl rfl rfl modC6top panelC6 (by decide) (by decide)
    (by decide) (by decide)

/-- C6 (counterexample): a component at depth 2 with two conflicting
access attributes satisfies the claim's condition, yet
`detectContradictions` emits nothing - the access scan only inspects the
module's direct children. -/
theorem access_conflict_missed_in_nested_component :
    panelC6 ∈ walkForest modC6.components ∧
    2 ≤ (accessAttrsOf panelC6).length ∧
    2 ≤ ((accessAttrsOf panelC6).map (fun a => a.value.jsLower)).dedup.length ∧
    detectContradictions mC6 = .ok [] := by decide

/-- In a duplicate-free list a member is counted exactly once. -/
theorem countP_eq_one_of_mem_nodup {α : Type} [DecidableEq α] :
    ∀ {l : List α}, l.Nodup → ∀ {a : α}, a ∈ l →
      l.countP (fun b => decide (b = a)) = 1 := by
  intro l
  induction l with
  | nil => intro _ a ha; cases ha
  | cons x t ih =>
    intro hnd a ha
    rcases List.mem_cons.mp ha with rfl | hat
    · rw [List.countP_cons_of_pos _ _ (by simp)]
      have hxt : a ∉ t := (List.nodup_cons.mp hnd).1
      have h0 : t.countP (fun b => decide (b = a)) = 0 := by
        refine List.countP_eq_zero.mpr ?_
        intro b hb
        simp only [decide_eq_true_eq]
        intro hba
        exact hxt (hba ▸ hb)
      rw [h0]
    · have hx : x ≠ a := by
        intro h
        exact (List.nodup_cons.mp hnd).1 (h ▸ hat)
      rw [List.countP_cons_of_neg _ _ (by simp [hx])]
      exact ih (List.nodup_cons.mp hnd).2 hat

/-- Keys after one `insertGrouped`: unchanged if the key already exists,
appended otherwise. -/
theorem insertGrouped_keys {α : Type} (k : String) (a : α) :
    ∀ acc : List (String × List α),
      (insertGrouped k a acc).map Prod.fst
        = if k ∈ acc.map Prod.fst then acc.map Prod.fst
          else acc.map Prod.fst ++ [k] := by
  intro acc
  induction acc with
  | nil => simp [insertGrouped]
  | cons p t ih =>
    obtain ⟨k', l⟩ := p
    cases hk : k' == k with
    | true =>
      have hkk : k' = k := by simpa using hk
      subst hkk
      simp [insertGrouped]
    | false =>
      have hne : k' ≠ k := by simpa using hk
      have hne' : k ≠ k' := fun h => hne h.symm
      simp only [insertGrouped, hk, Bool.false_eq_true, if_false, List.map_cons, ih]
      by_cases hmem : k ∈ t.map Prod.fst
      · simp [hmem, hne']
      · simp [hmem, hne']

/-- The grouping map has duplicate-free keys. -/
theorem groupByKey_keys_nodup {α : Type} (key : α → String) (l : List α) :
    ((groupByKey key l).map Prod.fst).Nodup := by
  suffices h : ∀ acc : List (String × List α), (acc.map Prod.fst).Nodup →
      ((l.foldl (fun acc a => insertGrouped (key a) a acc) acc).map Prod.fst).Nodup by
    exact h [] (by simp)
  induction l with
  | nil => intro acc h; simpa using h
  | cons x t ih =>
    intro acc h
    simp only [List.foldl_cons]
    apply ih
    rw [insertGrouped_keys]
    by_cases hmem : key x ∈ acc.map Prod.fst
    · simpa [hmem] using h
    · simp only [hmem, if_false]
      refine List.nodup_append.mpr ⟨h, List.nodup_singleton _, ?_⟩
      intro a ha hb
      have hak : a = key x := List.mem_singleton.mp hb
      subst hak
      exact hmem ha

/-- The grouping map itself is duplicate-free. -/
theorem groupByKey_nodup {α : Type} (key : α → String) (l : List α) :
    (groupByKey key l).Nodup :=
  List.Nodup.of_map _ (groupByKey_keys_nodup key l)

/-- C7 (confirmed): for a group of at least two flows sharing one
normalised trigger whose normalised outcomes are not all equal,
`detectContradictions` emits exactly one medium contradiction for that
group - the flow scan maps each group to at most one record, the group
occurs exactly once in the grouping map (`countP … = 1`), its record is
produced, and that record carries exactly one conflicting point per flow
of the group, in group order. -/
theorem detectContradictions_flow_outcome_conflict (m : SystemModel)
    (mods : List UIModule) (fls : List UserFlow) (ents : List Entity)
    (cs : List Constraint) (sts : List StateDefinition)
    (hU : m.uiModules = some mods) (hF : m.flows = some fls)
    (hE : m.entities = some ents) (hC : m.constraints = some cs)
    (hS : m.stateDefinitions = some sts)
    (p : String × List UserFlow) (hp : p ∈ groupByKey normTrigger fls)
    (hlen : 2 ≤ p.2.length)
    (hout : 2 ≤ ((p.2.map (fun f => f.outcome.jsLower.jsTrim)).dedup).length) :
    ∃ L, detectContradictions m = .ok L ∧
      mkFlowOpt p = some (mkFlowRec p.1 p.2) ∧
      mkFlowRec p.1 p.2 ∈ L ∧
      (mkFlowRec p.1 p.2).severity = .medium ∧
      (mkFlowRec p.1 p.2).conflictingPoints = p.2.map mkFlowPoint ∧
      (groupByKey normTrigger fls).countP (fun q => decide (q = p)) = 1 := by
  have hfire : mkFlowOpt p = some (mkFlowRec p.1 p.2) := by
    unfold mkFlowOpt
    simp [Nat.lt_of_lt_of_le Nat.one_lt_two hlen,
      Nat.lt_of_lt_of_le Nat.one_lt_two hout]
  refine ⟨accessScan mods ++ (flowConflictScan fls ++ (typeScan ents ++
      (permScan fls ++ (semScan cs ++ stateScan sts)))), ?_, hfire, ?_, rfl, rfl, ?_⟩
  · unfold detectContradictions
    rw [hU, hF, hE, hC, hS]
    simp only [getColl, except_bind_ok, List.append_assoc]
  · refine List.mem_append_right _ (List.mem_append_left _ ?_)
    unfold flowConflictScan
    exact List.mem_filterMap.mpr ⟨p, hp, hfire⟩
  · exact countP_eq_one_of_mem_nodup (groupByKey_nodup normTrigger fls) hp

theorem detectContradictions_flow_outcome_conflict_witness :
    ∃ L, detectContradictions mC7 = .ok L ∧
      mkFlowOpt ("submit order", [flowCheckout, flowRetry])
        = some (mkFlowRec "submit order" [flowCheckout, flowRetry]) ∧
      mkFlowRec "submit order" [flowCheckout, flowRetry] ∈ L ∧
      (mkFlowRec "submit order" [flowCheckout, flowRetry]).severity = .medium ∧
      (mkFlowRec "submit order" [flowCheckout, flowRetry]).conflictingPoints
        = [flowCheckout, flowRetry].map mkFlowPoint ∧
      (groupByKey normTrigger [flowCheckout, flowRetry]).countP
        (fun q => decide (q = ("submit order", [flowCheckout, flowRetry]))) = 1 :=
  detectContradictions_flow_outcome_conflict mC7 [] [flowCheckout, flowRetry]
    [] [] [] rfl rfl rfl rfl rfl ("submit order", [flowCheckout, flowRetry])
    (by decide) (by decide) (by decide)

/-- C8 (counterexample): two different module values share the name
"Shared" and each holds a "Card" component - the two occurrences come
from two different modules, yet no duplicate record is emitted, because
the scan counts distinct owning-module NAMES, not modules. -/
theorem component_duplicate_missed_same_module_name :
    modC8a ≠ modC8b ∧
    compOccs [modC8a, modC8b]
      = [("card", "Shared", "unknown"), ("card", "Shared", "unknown")] ∧
    detectDuplicates mC8 = .ok [] := by decide

/-- C8 (amended): a group of same-normalised-name components is flagged
exactly when its occurrences span at least two distinct owning-module
NAMES: occurrences confined to one module name (in particular,
repetition inside a single module) never produce a record, while a
group spanning two or more module names produces exactly one low-impact
record listing every occurrence. -/
theorem detectDuplicates_component_module_names (m : SystemModel)
    (mods : List UIModule) (fls : List UserFlow) (ents : List Entity)
    (hU : m.uiModules = some mods) (hF : m.flows = some fls)
    (hE : m.entities = some ents)
    (p : String × List (String × String × String)) (hp : p ∈ compGroups mods) :
    ∃ L, detectDuplicates m = .ok L ∧
      (((p.2.map (fun o => o.2.1)).dedup.length ≤ 1 →
        (compDupScan mods).countP (fun d => decide (d.elementName = p.1)) = 0) ∧
      (2 ≤ p.2.length ∧ 2 ≤ ((p.2.map (fun o => o.2.1)).dedup).length →
        mkCompOpt p = some (mkCompRec p) ∧ mkCompRec p ∈ L ∧
        (compDupScan mods).countP (fun d => decide (d.elementName = p.1)) = 1 ∧
        (mkCompRec p).occurrences.length = p.2.length ∧
        (mkCompRec p).impact = .low)) := by
  have hkeys := groupByKey_keys_nodup (fun o => o.1) (compOccs mods)
  have hPor : ∀ q, ((mkCompOpt q).map (fun d => decide (d.elementName = p.1))).getD false
      = if 1 < q.2.length && 1 < ((q.2.map (fun o => o.2.1)).dedup).length then
          decide (q.1 = p.1) else false := by
    intro q
    by_cases hcond : (1 < q.2.length && 1 < ((q.2.map (fun o => o.2.1)).dedup).length) = true
    · simp [mkCompOpt, hcond, mkCompRec]
    · simp [mkCompOpt, Bool.of_not_eq_true hcond, mkCompRec]
  have hcount : (compDupScan mods).countP (fun d => decide (d.elementName = p.1))
      = (compGroups mods).countP (fun q =>
          if 1 < q.2.length && 1 < ((q.2.map (fun o => o.2.1)).dedup).length then
            decide (q.1 = p.1) else false) := by
    unfold compDupScan
    rw [List.countP_filterMap]
    exact List.countP_congr (fun q _ => by rw [hPor q])
  refine ⟨entityDupScan ents ++ (flowDupScan fls ++ compDupScan mods), ?_, ?_, ?_⟩
  · unfold detectDuplicates
    rw [hU, hF, hE]
    simp only [getColl, except_bind_ok, List.append_assoc]
  · intro hle
    rw [hcount]
    refine List.countP_eq_zero.mpr ?_
    intro q hq
    by_cases hcond : (1 < q.2.length && 1 < ((q.2.map (fun o => o.2.1)).dedup).length) = true
    · simp only [hcond, if_true, decide_eq_true_eq]
      intro hqp
      have hq_eq : q = p :=
        List.inj_on_of_nodup_map hkeys hq hp hqp
      subst hq_eq
      have h2 := (Bool.and_eq_true _ _).mp hcond |>.2
      simp only [decide_eq_true_eq] at h2
      omega
    · simp [Bool.of_not_eq_true hcond]
  · intro ⟨h2, hd⟩
    have hcond : (1 < p.2.length && 1 < ((p.2.map (fun o => o.2.1)).dedup).length) = true := by
      simp only [Bool.and_eq_true, decide_eq_true_eq]
      omega
    have hfire : mkCompOpt p = some (mkCompRec p) := by
      simp [mkCompOpt, hcond]
    refine ⟨hfire, ?_, ?_, by simp [mkCompRec], rfl⟩
    · refine List.mem_append_right _ (List.mem_append_right _ ?_)
      unfold compDupScan
      exact List.mem_filterMap.mpr ⟨p, hp, hfire⟩
    · rw [hcount]
      refine Nat.le_antisymm ?_ ?_
      · calc (compGroups mods).countP (fun q =>
              if 1 < q.2.length && 1 < ((q.2.map (fun o => o.2.1)).dedup).length then
                decide (q.1 = p.1) else false)
            ≤ (compGroups mods).countP (fun q => decide (q.1 = p.1)) := by
              refine List.countP_mono_left ?_
              intro q _ hq
              by_cases hc : (1 < q.2.length && 1 < ((q.2.map (fun o => o.2.1)).dedup).length) = true
              · rw [hc] at hq; simpa using hq
              · rw [Bool.of_not_eq_true hc] at hq; simp at hq
          _ = 1 := by
              have : (compGroups mods).countP (fun q => decide (q.1 = p.1))
                  = ((compGroups mods).map Prod.fst).countP (fun k => decide (k = p.1)) := by
                rw [List.countP_map]
                rfl
              rw [this]
              exact countP_eq_one_of_mem_nodup hkeys (List.mem_map_of_mem Prod.fst hp)
      · have : 0 < (compGroups mods).countP (fun q =>
            if 1 < q.2.length && 1 < ((q.2.map (fun o => o.2.1)).dedup).length then
              decide (q.1 = p.1) else false) := by
          refine List.countP_pos_iff.mpr ⟨p, hp, ?_⟩
          simp [hcond]
        omega

theorem detectDuplicates_component_module_names_witness :
    ∃ L, detectDuplicates mC8ok = .ok L ∧
      ((((("card", [("card", "Home", "unknown"), ("card", "Admin", "unknown")]).2.map
          (fun o => o.2.1)).dedup.length ≤ 1) →
        (compDupScan [modC8c, modC8d]).countP (fun d => decide (d.elementName = "card")) = 0) ∧
      (2 ≤ ([("card", "Home", "unknown"), ("card", "Admin", "unknown")] :
            List (String × String × String)).length ∧
        2 ≤ (([("card", "Home", "unknown"), ("card", "Admin", "unknown")] :
            List (String × String × String)).map (fun o => o.2.1)).dedup.length →
        mkCompOpt ("card", [("card", "Home", "unknown"), ("card", "Admin", "unknown")])
          = some (mkCompRec ("card", [("card", "Home", "unknown"), ("card", "Admin", "unknown")])) ∧
        mkCompRec ("card", [("card", "Home", "unknown"), ("card", "Admin", "unknown")]) ∈ L ∧
        (compDupScan [modC8c, modC8d]).countP (fun d => decide (d.elementName = "card")) = 1 ∧
        (mkCompRec ("card", [("card", "Home", "unknown"), ("card", "Admin", "unknown")])).occurrences.length
          = [("card", "Home", "unknown"), ("card", "Admin", "unknown")].length ∧
        (mkCompRec ("card", [("card", "Home", "unknown"), ("card", "Admin", "unknown")])).impact
          = .low)) :=
  detectDuplicates_component_module_names mC8ok [modC8c, modC8d] [] []
    rfl rfl rfl ("card", [("card", "Home", "unknown"), ("card", "Admin", "unknown")])
    (by decide)

/-- C5 (counterexample): the constraints jointly contain `batch` /
`real-time` - in the order (batch first) the claim also covers - yet
`detectContradictions` emits nothing: the source only tests the
orientation in which the earlier constraint carries the first term. -/
theorem semantic_conflict_missed_reversed_order :
    specJointlyOpposite cC5a cC5b = true ∧
    semOpposed cC5a cC5b = false ∧
    detectContradictions mC5 = .ok [] := by decide

theorem countP_flatMap {α β : Type} (P : β → Bool) (f : α → List β) (l : List α) :
    (l.flatMap f).countP P = (l.map (fun a => (f a).countP P)).sum := by
  rw [List.flatMap_def, List.countP_flatten, List.map_map]
  rfl

theorem sum_map_ite_eq_countP {α : Type} (P : α → Prop) [DecidablePred P] :
    ∀ l : List α, (l.map (fun a => if P a then 1 else 0)).sum
      = l.countP (fun a => decide (P a)) := by
  intro l
  induction l with
  | nil => rfl
  | cons x t ih =>
    simp only [List.map_cons, List.sum_cons, List.countP_cons, ih]
    by_cases hx : P x
    · simp [hx, Nat.add_comm]
    · simp [hx]

/-- An index occurring in an enumeration occurs exactly once. -/
theorem countP_fst_enum_eq_one {α : Type} {cs : List α} {i : Nat} {ci : α}
    (hi : (i, ci) ∈ cs.enum) :
    cs.enum.countP (fun a => decide (a.1 = i)) = 1 := by
  have h1 : cs.enum.countP (fun a => decide (a.1 = i))
      = (cs.enum.map Prod.fst).countP (fun k => decide (k = i)) := by
    rw [List.countP_map]
    rfl
  rw [h1]
  exact countP_eq_one_of_mem_nodup (List.nodup_enum_map_fst cs)
    (List.mem_map_of_mem Prod.fst hi)

/-- Each ordered index pair occurs exactly once in the pair
enumeration. -/
theorem enumPairs_countP_eq_one {cs : List Constraint} {i j : Nat}
    {ci cj : Constraint} (hi : (i, ci) ∈ cs.enum) (hj : (j, cj) ∈ cs.enum)
    (hij : i < j) :
    (enumPairs cs).countP (fun q => decide (q.1.1 = i) && decide (q.2.1 = j)) = 1 := by
  unfold enumPairs
  rw [countP_flatMap]
  have hinner : ∀ a : Nat × Constraint,
      (cs.enum.filterMap (fun b => if a.1 < b.1 then some (a, b) else none)).countP
        (fun q => decide (q.1.1 = i) && decide (q.2.1 = j))
      = if a.1 = i then 1 else 0 := by
    intro a
    rw [List.countP_filterMap]
    by_cases ha : a.1 = i
    · rw [if_pos ha]
      have hpt : ∀ b : Nat × Constraint,
          (((if a.1 < b.1 then some (a, b) else none).map
            (fun q => decide (q.1.1 = i) && decide (q.2.1 = j))).getD false)
          = decide (b.1 = j) := by
        intro b
        by_cases hab : a.1 < b.1
        · have hab' : i < b.1 := ha ▸ hab
          simp [hab, hab', ha]
        · have hbj : b.1 ≠ j := by
            intro hbj
            exact hab (by omega)
          simp [hab, hbj]
      rw [List.countP_congr (fun b _ => by rw [hpt b])]
      exact countP_fst_enum_eq_one hj
    · rw [if_neg ha]
      refine List.countP_eq_zero.mpr ?_
      intro b _
      by_cases hab : a.1 < b.1
      · simp [hab, ha]
      · simp [hab]
  rw [List.map_congr_left (fun a _ => hinner a)]
  rw [sum_map_ite_eq_countP (fun a : Nat × Constraint => a.1 = i)]
  exact countP_fst_enum_eq_one hi

/-- C5 (amended): for every ordered pair `i < j` of constraints whose
descriptions contain an opposite-term pair in the orientation the source
tests (the earlier description carries the first term), the semantic
scan fires exactly once for that pair: the pair occurs exactly once in
the pair enumeration, it yields exactly the record `mkSemRec i ci j cj`,
and that medium-severity record is in the output. -/
theorem detectContradictions_semantic_pair (m : SystemModel)
    (mods : List UIModule) (fls : List UserFlow) (ents : List Entity)
    (cs : List Constraint) (sts : List StateDefinition)
    (hU : m.uiModules = some mods) (hF : m.flows = some fls)
    (hE : m.entities = some ents) (hC : m.constraints = some cs)
    (hS : m.stateDefinitions = some sts)
    (i j : Nat) (ci cj : Constraint)
    (hi : cs[i]? = some ci) (hj : cs[j]? = some cj) (hij : i < j)
    (hopp : semOpposed ci cj = true) :
    ∃ L, detectContradictions m = .ok L ∧
      mkSemOpt ((i, ci), (j, cj)) = some (mkSemRec i ci j cj) ∧
      mkSemRec i ci j cj ∈ L ∧
      (mkSemRec i ci j cj).severity = .medium ∧
      (enumPairs cs).countP (fun q => decide (q.1.1 = i) && decide (q.2.1 = j)) = 1 := by
  have hmi : (i, ci) ∈ cs.enum := List.mk_mem_enum_iff_getElem?.mpr (by simpa using hi)
  have hmj : (j, cj) ∈ cs.enum := List.mk_mem_enum_iff_getElem?.mpr (by simpa using hj)
  have hpair : ((i, ci), (j, cj)) ∈ enumPairs cs := by
    unfold enumPairs
    refine List.mem_flatMap.mpr ⟨(i, ci), hmi, ?_⟩
    refine List.mem_filterMap.mpr ⟨(j, cj), hmj, ?_⟩
    simp [hij]
  have hfire : mkSemOpt ((i, ci), (j, cj)) = some (mkSemRec i ci j cj) := by
    simp [mkSemOpt, hopp]
  refine ⟨accessScan mods ++ (flowConflictScan fls ++ (typeScan ents ++
      (permScan fls ++ (semScan cs ++ stateScan sts)))), ?_, hfire, ?_, rfl, ?_⟩
  · unfold detectContradictions
    rw [hU, hF, hE, hC, hS]
    simp only [getColl, except_bind_ok, List.append_assoc]
  · refine List.mem_append_right _ (List.mem_append_right _
      (List.mem_append_right _ (List.mem_append_right _ (List.mem_append_left _ ?_))))
    unfold semScan
    exact List.mem_filterMap.mpr ⟨((i, ci), (j, cj)), hpair, hfire⟩
  · exact enumPairs_countP_eq_one hmi hmj hij

theorem detectContradictions_semantic_pair_witness :
    ∃ L, detectContradictions mC5ok = .ok L ∧
      mkSemOpt ((0, cC5b), (1, cC5a)) = some (mkSemRec 0 cC5b 1 cC5a) ∧
      mkSemRec 0 cC5b 1 cC5a ∈ L ∧
      (mkSemRec 0 cC5b 1 cC5a).severity = .medium ∧
      (enumPairs [cC5b, cC5a]).countP
        (fun q => decide (q.1.1 = 0) && decide (q.2.1 = 1)) = 1 :=
  detectContradictions_semantic_pair mC5ok [] [] [] [cC5b, cC5a] []
    rfl rfl rfl rfl rfl 0 1 cC5b cC5a (by decide) (by decide) (by decide) (by decide)

theorem attrAny_eq_getD (c : UIComponent) (p : Attr → Bool) :
    attrAny c p = (c.attributes.getD []).any p := by
  cases c with
  | mk n ch attrs prov =>
    cases attrs with
    | none => rfl
    | some l => rfl

/-- C9 (confirmed): a component named `DeleteButton` carrying an `icon`
attribute and neither a text/label attribute nor any attribute whose
name mentions tooltip/title makes `rule-tooltip-icon-only` fire against
that node (a matching suggestion is emitted) while
`rule-icon-standard-actions` does not fire against it (its condition is
false there, since an icon is already present). -/
theorem evaluateRules_delete_button_scenario (gen : Nat → String)
    (m : SystemModel) (mods : List UIModule) (fls : List UserFlow)
    (ents : List Entity) (hU : m.uiModules = some mods)
    (hF : m.flows = some fls) (hE : m.entities = some ents)
    (mod : UIModule) (hmod : mod ∈ mods)
    (c : UIComponent) (hc : c ∈ walkForest mod.components)
    (hname : c.name = "DeleteButton")
    (hicon : (c.attributes.getD []).any (fun a => decide (a.name = "icon")) = true)
    (hnotext : ∀ a ∈ c.attributes.getD [],
      a.name.jsLower ≠ "text" ∧ a.name.jsLower ≠ "label")
    (hnotip : ∀ a ∈ c.attributes.getD [],
      strContains a.name.jsLower "tooltip" = false ∧
      strContains a.name.jsLower "title" = false) :
    componentFires tooltipIconOnlySelector tooltipIconOnlyCond m c = true ∧
    componentFires iconStandardActionsSelector iconAbsentCond m c = false ∧
    ∃ L, evaluateRules gen m = .ok L ∧
      ∃ s ∈ L, s.ruleId = "rule-tooltip-icon-only" ∧
        s.targetElement = some "DeleteButton" := by
  obtain ⟨a0, ha0, ha0n⟩ := List.any_eq_true.mp hicon
  have ha0name : a0.name = "icon" := by simpa using ha0n
  have hicon1 : attrAny c (fun attr => strContains attr.name.jsLower "icon") = true := by
    rw [attrAny_eq_getD]
    refine List.any_eq_true.mpr ⟨a0, ha0, ?_⟩
    rw [ha0name]
    decide
  have htext : attrAny c (fun attr =>
      attr.name.jsLower == "text" || attr.name.jsLower == "label") = false := by
    rw [attrAny_eq_getD]
    refine List.any_eq_false.mpr ?_
    intro a ha
    simp [(hnotext a ha).1, (hnotext a ha).2]
  have htip : attrAny c (fun attr =>
      strContains attr.name.jsLower "tooltip" ||
      strContains attr.name.jsLower "title") = false := by
    rw [attrAny_eq_getD]
    refine List.any_eq_false.mpr ?_
    intro a ha
    simp [(hnotip a ha).1, (hnotip a ha).2]
  have hsel : matchesSelector c.name tooltipIconOnlySelector = true := by
    rw [hname]
    decide
  have hcondT : tooltipIconOnlyCond m c = true := by
    unfold tooltipIconOnlyCond
    rw [hicon1, htext, htip]
    rfl
  have hfireT : componentFires tooltipIconOnlySelector tooltipIconOnlyCond m c = true := by
    unfold componentFires
    rw [hsel, hcondT]
    rfl
  have hiconAttr : hasIconAttr c = true := by
    unfold hasIconAttr
    rw [attrAny_eq_getD]
    refine List.any_eq_true.mpr ⟨a0, ha0, ?_⟩
    rw [ha0name]
    rw [show strContains ("icon" : String).jsLower "icon" = true from by decide]
    rfl
  have hfireS : componentFires iconStandardActionsSelector iconAbsentCond m c = false := by
    unfold componentFires iconAbsentCond
    rw [hiconAttr]
    simp
  refine ⟨hfireT, hfireS, ?_⟩
  have hEF : emissionsFor m ruleTooltipIconOnly
      = .ok (mods.flatMap (fun mod =>
          (walkForest mod.components).filterMap (fun c =>
            if matchesSelector c.name tooltipIconOnlySelector &&
                tooltipIconOnlyCond m c then
              some (ruleTooltipIconOnly, some c.name)
            else none))) := by
    unfold emissionsFor
    rw [show ruleTooltipIconOnly.body
      = RuleBody.component tooltipIconOnlySelector tooltipIconOnlyCond from rfl]
    rw [hU]
    rfl
  have he : (ruleTooltipIconOnly, some c.name) ∈ mods.flatMap (fun mod =>
      (walkForest mod.components).filterMap (fun c =>
        if matchesSelector c.name tooltipIconOnlySelector &&
            tooltipIconOnlyCond m c then
          some (ruleTooltipIconOnly, some c.name)
        else none)) := by
    refine List.mem_flatMap.mpr ⟨mod, hmod, ?_⟩
    refine List.mem_filterMap.mpr ⟨c, hc, ?_⟩
    rw [show (matchesSelector c.name tooltipIconOnlySelector &&
      tooltipIconOnlyCond m c) = true from hfireT]
    rfl
  have hmemR : ruleTooltipIconOnly ∈ RULES := by
    unfold RULES
    exact List.mem_cons_of_mem _ (List.mem_cons_of_mem _ (List.mem_cons_self _ _))
  obtain ⟨Lems, hrun⟩ := runRules_isOk (emissionsFor_isOk m mods fls ents hU hF hE)
  have heL : (ruleTooltipIconOnly, some c.name) ∈ Lems :=
    runRules_mem hrun hmemR hEF he
  obtain ⟨s, hs, h1, h2⟩ := assignIds_mem gen 0 heL
  refine ⟨assignIds gen 0 Lems, ?_, s, hs, ?_, ?_⟩
  · unfold evaluateRules
    rw [hrun, except_bind_ok]
  · rw [h1]
    rfl
  · rw [h2, hname]

theorem evaluateRules_delete_button_scenario_witness :
    componentFires tooltipIconOnlySelector tooltipIconOnlyCond mC9 deleteButtonC9 = true ∧
    componentFires iconStandardActionsSelector iconAbsentCond mC9 deleteButtonC9 = false ∧
    ∃ L, evaluateRules genR mC9 = .ok L ∧
      ∃ s ∈ L, s.ruleId = "rule-tooltip-icon-only" ∧
        s.targetElement = some "DeleteButton" :=
  evaluateRules_delete_button_scenario genR mC9 [modC9] [] [] rfl rfl rfl
    modC9 (by decide) deleteButtonC9 (by decide) rfl (by decide) (by decide)
    (by decide)
